import Mathlib

/-!
Verification development for the pfin team-management backend.

The Python sources are shallowly embedded:
- Python strings are `List Char` (`Str`); `str` injects Lean string literals.
- The SQLite database is a `DB` record of lists; a SQLAlchemy session is a
  `Session` holding the committed database, the current (in-transaction,
  autoflushed) database, and a counter of commit events.  Queries read the
  current database, which models autoflush semantics: staged-but-uncommitted
  rows are visible to later queries in the same session.
- Fallible Python code (raise/except) is embedded with `Except Str`; a raised
  `ServiceError` carries its message string.  Operations return the session as
  mutated so far together with the outcome, matching in-place object mutation.
- The csv module text layer is modelled as the in-memory table it round-trips:
  a header list plus one list of cell strings per data row.
- `datetime.date` is `PDate` with the Gregorian validity check; strftime and
  strptime for the three formats used by the code are embedded directly.
- Timestamp columns (`created_at`, `date_saved`) are outside the model; no
  claim mentions them.
-/

namespace Pfin

/-- Python strings are modelled as lists of characters. -/
abbrev Str := List Char

/-- Inject a Lean string literal into the character-list model. -/
def str (s : String) : Str := s.data

/-- Python str.strip: drop leading and trailing whitespace. -/
def pyStrip (s : Str) : Str :=
  (((s.dropWhile Char.isWhitespace).reverse).dropWhile Char.isWhitespace).reverse

/-- Python str.upper, restricted to ASCII letters. -/
def pyUpper (s : Str) : Str := s.map Char.toUpper

/-- Value of a decimal digit character. -/
def digitVal? (c : Char) : Option Nat :=
  if c.isDigit then some (c.toNat - 48) else none

/-- Accumulating digits-only parse of a natural number. -/
def parseNatAux : Nat → Str → Option Nat
  | acc, [] => some acc
  | acc, c :: cs =>
    match digitVal? c with
    | some d => parseNatAux (acc * 10 + d) cs
    | none => none

/-- Digits-only parse of a natural number; fails on empty or non-digit input. -/
def parseNat? (s : Str) : Option Nat :=
  match s with
  | [] => none
  | _ => parseNatAux 0 s

/-- Fuel-driven decimal rendering (structural so that it reduces in the kernel). -/
def natDigitsAux : Nat → Nat → Str → Str
  | 0, _, acc => acc
  | fuel + 1, n, acc =>
    if n < 10 then Nat.digitChar n :: acc
    else natDigitsAux fuel (n / 10) (Nat.digitChar (n % 10) :: acc)

/-- Decimal digit characters of a natural number: the embedding of Python str(int). -/
def natDigits (n : Nat) : Str := natDigitsAux (n + 1) n []

/-- Decimal rendering of a Python int. -/
def intDigits : Int → Str
  | Int.ofNat n => natDigits n
  | Int.negSucc n => '-' :: natDigits (n + 1)

/-- Model of Python int(s) on a stripped string: optional sign then digits.
(Underscore separators and non-ASCII digits are outside the model.) -/
def parseInt? (s : Str) : Option Int :=
  match s with
  | [] => none
  | c :: cs =>
    if c == '-' then (parseNat? cs).map (fun n => -(n : Int))
    else if c == '+' then (parseNat? cs).map (fun n => (n : Int))
    else (parseNat? (c :: cs)).map (fun n => (n : Int))

/-- Gregorian leap-year test. -/
def isLeapYear (y : Nat) : Bool :=
  (y % 4 == 0 && y % 100 != 0) || y % 400 == 0

/-- Days in a month of the proleptic Gregorian calendar. -/
def daysInMonth (y m : Nat) : Nat :=
  if m == 2 then (if isLeapYear y then 29 else 28)
  else if m == 4 || m == 6 || m == 9 || m == 11 then 30
  else 31

/-- Embedding of datetime.date as a plain year-month-day record. -/
structure PDate where
  year : Nat
  month : Nat
  day : Nat
deriving DecidableEq

/-- Validity of a date per the datetime.date constructor (MINYEAR 1, MAXYEAR 9999). -/
def PDate.valid (d : PDate) : Prop :=
  1 ≤ d.year ∧ d.year ≤ 9999 ∧ 1 ≤ d.month ∧ d.month ≤ 12 ∧
    1 ≤ d.day ∧ d.day ≤ daysInMonth d.year d.month

instance (d : PDate) : Decidable d.valid := by
  unfold PDate.valid
  infer_instance

/-- Split a character list at every occurrence of a separator. -/
def splitOnChar (sep : Char) : Str → List Str
  | [] => [[]]
  | c :: rest =>
    match splitOnChar sep rest with
    | [] => if c == sep then [[], []] else [[c]]
    | g :: gs => if c == sep then [] :: g :: gs else (c :: g) :: gs

/-- Numeric field of a strptime pattern: 1 to maxLen digit characters
(%m and %d in CPython strptime accept one or two digits). -/
def parseDateField? (s : Str) (maxLen : Nat) : Option Nat :=
  if 1 ≤ s.length ∧ s.length ≤ maxLen ∧ s.all Char.isDigit = true then parseNat? s
  else none

/-- Year field of a strptime pattern: %Y in CPython strptime is the regex
of exactly four digit characters, so one- to three-digit years are rejected. -/
def parseYearField? (s : Str) : Option Nat :=
  if s.length = 4 ∧ s.all Char.isDigit = true then parseNat? s
  else none

/-- Construct a date, failing as the datetime.date constructor does. -/
def mkDate? (y m d : Nat) : Option PDate :=
  if (PDate.mk y m d).valid then some ⟨y, m, d⟩ else none

/-- Model of strptime with format %Y-%m-%d. -/
def parseYMD? (s : Str) : Option PDate :=
  match splitOnChar '-' s with
  | [ys, ms, ds] => do
    let y ← parseYearField? ys
    let m ← parseDateField? ms 2
    let d ← parseDateField? ds 2
    mkDate? y m d
  | _ => none

/-- Model of strptime with format %m/%d/%Y. -/
def parseMDY? (s : Str) : Option PDate :=
  match splitOnChar '/' s with
  | [ms, ds, ys] => do
    let m ← parseDateField? ms 2
    let d ← parseDateField? ds 2
    let y ← parseYearField? ys
    mkDate? y m d
  | _ => none

/-- Model of strptime with format %d/%m/%Y. -/
def parseDMY? (s : Str) : Option PDate :=
  match splitOnChar '/' s with
  | [ds, ms, ys] => do
    let d ← parseDateField? ds 2
    let m ← parseDateField? ms 2
    let y ← parseYearField? ys
    mkDate? y m d
  | _ => none

/-- Birthdate parsing: the three formats tried in order, first success wins
(csv_service.py, _parse_player_row). -/
def parseBirthdate? (s : Str) : Option PDate :=
  match parseYMD? s with
  | some d => some d
  | none =>
    match parseMDY? s with
    | some d => some d
    | none => parseDMY? s

/-- Zero-pad to two digits, as strftime %m and %d do. -/
def pad2 (n : Nat) : Str := if n < 10 then '0' :: natDigits n else natDigits n

/-- Model of strftime %Y-%m-%d; %Y is emitted without padding, so a year
below 1000 yields fewer than four digit characters. -/
def formatDate (d : PDate) : Str :=
  natDigits d.year ++ '-' :: (pad2 d.month ++ '-' :: pad2 d.day)

/-! Enums from src/app/models.py. -/

/-- Player position enum. -/
inductive Position
  | F
  | D
  | G
deriving DecidableEq

/-- String value of a Position, as in models.py. -/
def Position.value : Position → Str
  | .F => str "F"
  | .D => str "D"
  | .G => str "G"

/-- Player handedness enum. -/
inductive Hand
  | L
  | R
deriving DecidableEq

/-- String value of a Hand. -/
def Hand.value : Hand → Str
  | .L => str "L"
  | .R => str "R"

/-- Player status enum. -/
inductive PlayerStatus
  | ACTIVE
  | AFFILIATE
  | INJURED
  | INACTIVE
deriving DecidableEq

/-- String value of a PlayerStatus. -/
def PlayerStatus.value : PlayerStatus → Str
  | .ACTIVE => str "Active"
  | .AFFILIATE => str "Affiliate"
  | .INJURED => str "Injured"
  | .INACTIVE => str "Inactive"

/-- Lineup slot type enum. -/
inductive SlotType
  | FWD
  | DEF
  | G
deriving DecidableEq

/-- String value of a SlotType. -/
def SlotType.value : SlotType → Str
  | .FWD => str "FWD"
  | .DEF => str "DEF"
  | .G => str "G"

/-! Table records from src/app/models.py. -/

/-- Team row. -/
structure Team where
  id : Nat
  name : Str
  season : Str
deriving DecidableEq

/-- Player row. -/
structure Player where
  id : Nat
  team_id : Nat
  name : Str
  position : Position
  jersey : Option Int := none
  hand : Option Hand := none
  birthdate : Option PDate := none
  email : Option Str := none
  phone : Option Str := none
  status : PlayerStatus := PlayerStatus.ACTIVE
deriving DecidableEq

/-- LineupTemplate row. -/
structure LineupTemplate where
  id : Nat
  team_id : Nat
  name : Str
  notes : Option Str := none
deriving DecidableEq

/-- LineupSlot row. -/
structure LineupSlot where
  id : Nat
  template_id : Nat
  slot_type : SlotType
  slot_label : Str
  order_index : Nat
  player_id : Option Nat := none
deriving DecidableEq

/-- Database contents: one list per table, in insertion (rowid) order, plus the
next fresh primary-key value. -/
structure DB where
  teams : List Team := []
  players : List Player := []
  templates : List LineupTemplate := []
  slots : List LineupSlot := []
  nextId : Nat := 1
deriving DecidableEq

/-- Session state: committed database, current in-transaction database (queries
see it, modelling autoflush), and a count of commit events. -/
structure Session where
  committed : DB
  cur : DB
  commits : Nat := 0
deriving DecidableEq

/-- Open a session on a database. -/
def Session.fromDB (db : DB) : Session := ⟨db, db, 0⟩

/-- session.commit(): persist the current state and count the event. -/
def Session.commit (s : Session) : Session :=
  { s with committed := s.cur, commits := s.commits + 1 }

/-- session.rollback(): discard uncommitted changes. -/
def Session.rollback (s : Session) : Session :=
  { s with cur := s.committed }

/-- session.get(Team, id). -/
def DB.getTeam (db : DB) (id : Nat) : Option Team :=
  db.teams.find? (fun t => t.id == id)

/-- session.get(Player, id). -/
def DB.getPlayer (db : DB) (id : Nat) : Option Player :=
  db.players.find? (fun p => p.id == id)

/-- session.get(LineupTemplate, id). -/
def DB.getTemplate (db : DB) (id : Nat) : Option LineupTemplate :=
  db.templates.find? (fun t => t.id == id)

/-- session.get(LineupSlot, id). -/
def DB.getSlot (db : DB) (id : Nat) : Option LineupSlot :=
  db.slots.find? (fun s => s.id == id)

/-! Lineup service (src/services/lineup_service.py). -/

/-- Assignment warning entry, a dict with keys "type" and "message". -/
structure Warning where
  type : Str
  message : Str
deriving DecidableEq

/-- Result dict of assign_player_to_slot. -/
structure AssignResult where
  success : Bool
  slot_id : Nat
  player_id : Option Nat
  warnings : List Warning
deriving DecidableEq

/-- FORWARD_LINES class constant. -/
def FORWARD_LINES : Nat := 4

/-- DEFENSE_PAIRS class constant. -/
def DEFENSE_PAIRS : Nat := 3

/-- Structural content of the seeded slots: slot_type, slot_label and
order_index, in insertion order, exactly as _seed_lineup_slots builds them. -/
def seedSpecs : List (SlotType × Str × Nat) :=
  (((List.range FORWARD_LINES).map (fun i => i + 1)).flatMap (fun line =>
      ([str "LW", str "C", str "RW"].enum).map (fun pi =>
        (SlotType.FWD, str "FWD" ++ natDigits line ++ str " " ++ pi.2,
          line * 10 + pi.1)))) ++
  (((List.range DEFENSE_PAIRS).map (fun i => i + 1)).flatMap (fun pair =>
      ([str "L", str "R"].enum).map (fun pi =>
        (SlotType.DEF, str "DEF" ++ natDigits pair ++ str " " ++ pi.2,
          100 + pair * 10 + pi.1)))) ++
  (([str "Starter", str "Backup"].enum).map (fun gi =>
      (SlotType.G, str "G " ++ gi.2, 200 + gi.1)))

/-- Insert one slot row, drawing a fresh id. -/
def DB.insertSlot (db : DB) (template_id : Nat) (spec : SlotType × Str × Nat) : DB :=
  { db with
      slots := db.slots ++
        [{ id := db.nextId, template_id := template_id, slot_type := spec.1,
           slot_label := spec.2.1, order_index := spec.2.2, player_id := none }],
      nextId := db.nextId + 1 }

/-- _seed_lineup_slots: add the 16 standard slots for a template. -/
def seedLineupSlots (db : DB) (template_id : Nat) : DB :=
  seedSpecs.foldl (fun d spec => d.insertSlot template_id spec) db

/-- create_lineup_template: verify the team, insert the template, seed its
slots, commit. -/
def createLineupTemplate (s : Session) (team_id : Nat) (name : Str)
    (notes : Option Str) : Session × Except Str LineupTemplate :=
  match s.cur.getTeam team_id with
  | none => (s, Except.error (str "Team with ID " ++ natDigits team_id ++ str " not found"))
  | some _ =>
    let template : LineupTemplate :=
      { id := s.cur.nextId, team_id := team_id, name := name, notes := notes }
    let db1 : DB :=
      { s.cur with templates := s.cur.templates ++ [template], nextId := s.cur.nextId + 1 }
    let db2 := seedLineupSlots db1 template.id
    (Session.commit { s with cur := db2 }, Except.ok template)

/-- _find_player_in_lineup: first slot of the template holding the player, in
storage (insertion) order, as the unordered SELECT ... .first() returns it. -/
def findPlayerInLineup (db : DB) (template_id player_id : Nat) : Option LineupSlot :=
  db.slots.find? (fun s => s.template_id == template_id && s.player_id == some player_id)

/-- _is_position_compatible: the fixed map F-FWD, D-DEF, G-G. -/
def isPositionCompatible (player_position slot_type : Str) : Bool :=
  if player_position == str "F" && slot_type == str "FWD" then true
  else if player_position == str "D" && slot_type == str "DEF" then true
  else if player_position == str "G" && slot_type == str "G" then true
  else false

/-- Overwrite the player reference of one slot in place. -/
def DB.setSlotPlayer (db : DB) (slot_id : Nat) (pid : Option Nat) : DB :=
  { db with
      slots := db.slots.map (fun s =>
        if s.id == slot_id then { s with player_id := pid } else s) }

/-- Warnings computed by assign_player_to_slot for a same-team player. -/
def assignWarnings (db : DB) (slot_id : Nat) (slot : LineupSlot)
    (template : LineupTemplate) (pid : Nat) (player : Player) : List Warning :=
  (match findPlayerInLineup db template.id pid with
    | some existing =>
      if existing.id ≠ slot_id then
        [{ type := str "duplicate",
           message := str "Player " ++ player.name ++
             str " is already assigned to " ++ existing.slot_label }]
      else []
    | none => []) ++
  (if player.status.value ≠ str "Active" then
      [{ type := str "status",
         message := str "Player " ++ player.name ++ str " has status \x27" ++
           player.status.value ++ str "\x27 (not Active)" }]
    else []) ++
  (if isPositionCompatible player.position.value slot.slot_type.value = false then
      [{ type := str "position",
         message := str "Player " ++ player.name ++ str " is a " ++
           player.position.value ++ str " but slot is for " ++ slot.slot_type.value }]
    else [])

/-- assign_player_to_slot: look up slot, template and (when given) player,
reject a cross-team player, compute the non-fatal warnings, set the slot and
commit. -/
def assignPlayerToSlot (s : Session) (slot_id : Nat) (player_id : Option Nat) :
    Session × Except Str AssignResult :=
  match s.cur.getSlot slot_id with
  | none =>
    (s, Except.error (str "Slot with ID " ++ natDigits slot_id ++ str " not found"))
  | some slot =>
    match s.cur.getTemplate slot.template_id with
    | none =>
      (s, Except.error
        (str "Template with ID " ++ natDigits slot.template_id ++ str " not found"))
    | some template =>
      let checked : Except Str (List Warning) :=
        match player_id with
        | none => Except.ok []
        | some pid =>
          match s.cur.getPlayer pid with
          | none =>
            Except.error (str "Player with ID " ++ natDigits pid ++ str " not found")
          | some player =>
            if player.team_id ≠ template.team_id then
              Except.error (str "Player must be on the same team as the lineup template")
            else Except.ok (assignWarnings s.cur slot_id slot template pid player)
      match checked with
      | Except.error e => (s, Except.error e)
      | Except.ok warnings =>
        let s1 := Session.commit { s with cur := s.cur.setSlotPlayer slot_id player_id }
        (s1, Except.ok
          { success := true, slot_id := slot_id, player_id := player_id,
            warnings := warnings })

/-- One item of a bulk_update_slots request, a dict read with .get. -/
structure BulkItem where
  slot_id : Option Nat
  player_id : Option Nat
deriving DecidableEq

/-- Result dict of bulk_update_slots. -/
structure BulkResult where
  success : Bool
  updated_slots : List Nat
  warnings : List Warning
deriving DecidableEq

/-- Loop body of bulk_update_slots: items without a slot_id are skipped, each
ServiceError becomes a warning entry, successes record the slot id. -/
def bulkStep (acc : Session × List Nat × List Warning) (item : BulkItem) :
    Session × List Nat × List Warning :=
  match item.slot_id with
  | none => acc
  | some sid =>
    match assignPlayerToSlot acc.1 sid item.player_id with
    | (s, Except.ok r) => (s, acc.2.1 ++ [sid], acc.2.2 ++ r.warnings)
    | (s, Except.error e) =>
      (s, acc.2.1,
        acc.2.2 ++
          [{ type := str "error",
             message := str "Failed to update slot " ++ natDigits sid ++ str ": " ++ e }])

/-- bulk_update_slots: fail fast when the template is missing, otherwise fold
the items and commit once more at the end. -/
def bulkUpdateSlots (s : Session) (template_id : Nat) (items : List BulkItem) :
    Session × Except Str BulkResult :=
  match s.cur.getTemplate template_id with
  | none =>
    (s, Except.error (str "Template with ID " ++ natDigits template_id ++ str " not found"))
  | some _ =>
    let folded := items.foldl bulkStep (s, [], [])
    (Session.commit folded.1,
      Except.ok { success := true, updated_slots := folded.2.1, warnings := folded.2.2 })

/-- save_lineup: stamp date_saved (outside the model) and commit. -/
def saveLineup (s : Session) (template_id : Nat) : Session × Except Str LineupTemplate :=
  match s.cur.getTemplate template_id with
  | none =>
    (s, Except.error (str "Template with ID " ++ natDigits template_id ++ str " not found"))
  | some template => (Session.commit s, Except.ok template)

/-! CSV service (src/services/csv_service.py). -/

/-- Expected CSV headers (EXPECTED_HEADERS class constant). -/
def EXPECTED_HEADERS : List Str :=
  [str "name", str "position", str "jersey", str "hand", str "birthdate",
   str "email", str "phone", str "status"]

/-- Parsed player data staged for insertion; a status of none means the column
was blank, so the Player model default applies at construction. -/
structure PlayerData where
  team_id : Nat
  name : Str
  position : Str
  jersey : Option Int := none
  hand : Option Hand := none
  birthdate : Option PDate := none
  email : Option Str := none
  phone : Option Str := none
  status : Option PlayerStatus := none
deriving DecidableEq

/-- Cell of a DictReader row: fieldnames zipped with the row values.  A row
shorter than the header yields no value for the trailing keys (DictReader
fills None there, on which .strip() raises). -/
def rowCell (fns row : List Str) (key : Str) : Option Str :=
  (fns.zip row).lookup key

/-- Message of the AttributeError raised when a short row leaves a cell None
and the code calls .strip() on it. -/
def noneStripMsg : Str := str "\x27NoneType\x27 object has no attribute \x27strip\x27"

/-- Read a cell that the code immediately calls .strip() on. -/
def cellStr (fns row : List Str) (key : Str) : Except Str Str :=
  match rowCell fns row key with
  | some v => Except.ok v
  | none => Except.error noneStripMsg

/-- Mapping table for the status column (case-insensitive, silent default). -/
def statusMap (u : Str) : PlayerStatus :=
  if u == str "ACTIVE" then .ACTIVE
  else if u == str "AFFILIATE" then .AFFILIATE
  else if u == str "INJURED" then .INJURED
  else if u == str "INACTIVE" then .INACTIVE
  else if u == str "ACT" then .ACTIVE
  else if u == str "AFF" then .AFFILIATE
  else if u == str "INJ" then .INJURED
  else if u == str "INA" then .INACTIVE
  else .ACTIVE

/-- Jersey column of _parse_player_row: int() of the stripped value when
non-blank, rejecting unparsable input. -/
def parseJerseyField (raw : Str) (pd : PlayerData) : Except Str PlayerData :=
  if pyStrip raw ≠ [] then
    match parseInt? (pyStrip raw) with
    | some j => Except.ok { pd with jersey := some j }
    | none => Except.error (str "Invalid jersey number")
  else Except.ok pd

/-- Hand column of _parse_player_row: L/LEFT and R/RIGHT accepted
case-insensitively, anything else non-blank rejected. -/
def parseHandField (raw : Str) (pd : PlayerData) : Except Str PlayerData :=
  if pyStrip raw ≠ [] then
    if pyUpper (pyStrip raw) == str "L" || pyUpper (pyStrip raw) == str "LEFT" then
      Except.ok { pd with hand := some Hand.L }
    else if pyUpper (pyStrip raw) == str "R" || pyUpper (pyStrip raw) == str "RIGHT" then
      Except.ok { pd with hand := some Hand.R }
    else Except.error (str "Invalid hand value (must be L/Left or R/Right)")
  else Except.ok pd

/-- Birthdate column of _parse_player_row: the three formats in order. -/
def parseBirthdateField (raw : Str) (pd : PlayerData) : Except Str PlayerData :=
  if pyStrip raw ≠ [] then
    match parseBirthdate? (pyStrip raw) with
    | some d => Except.ok { pd with birthdate := some d }
    | none => Except.error (str "Invalid birthdate: Invalid date format")
  else Except.ok pd

/-- Email column of _parse_player_row: stripped value stored when non-blank. -/
def parseEmailField (raw : Str) (pd : PlayerData) : PlayerData :=
  if pyStrip raw ≠ [] then { pd with email := some (pyStrip raw) } else pd

/-- Phone column of _parse_player_row: stripped value stored when non-blank. -/
def parsePhoneField (raw : Str) (pd : PlayerData) : PlayerData :=
  if pyStrip raw ≠ [] then { pd with phone := some (pyStrip raw) } else pd

/-- Status column of _parse_player_row: mapped through the synonym table when
non-blank, with a silent Active default for unknown values. -/
def parseStatusField (raw : Str) (pd : PlayerData) : PlayerData :=
  if pyStrip raw ≠ [] then
    { pd with status := some (statusMap (pyUpper (pyStrip raw))) }
  else pd

/-- _parse_player_row: build player data column by column, raising on the
first malformed value, in source order. -/
def parsePlayerRow (fns row : List Str) (team_id : Nat) : Except Str PlayerData := do
  let nameRaw ← cellStr fns row (str "name")
  let posRaw ← cellStr fns row (str "position")
  let pd0 : PlayerData :=
    { team_id := team_id, name := pyStrip nameRaw, position := pyUpper (pyStrip posRaw) }
  let jRaw ← cellStr fns row (str "jersey")
  let pd1 ← parseJerseyField jRaw pd0
  let hRaw ← cellStr fns row (str "hand")
  let pd2 ← parseHandField hRaw pd1
  let bRaw ← cellStr fns row (str "birthdate")
  let pd3 ← parseBirthdateField bRaw pd2
  let eRaw ← cellStr fns row (str "email")
  let pd4 := parseEmailField eRaw pd3
  let phRaw ← cellStr fns row (str "phone")
  let pd5 := parsePhoneField phRaw pd4
  let sRaw ← cellStr fns row (str "status")
  pure (parseStatusField sRaw pd5)

/-- Basic email check from _validate_player_data: an @ must occur and the part
between the first and second @ must contain a dot. -/
def emailFormatOk (e : Str) : Bool :=
  e.contains '@' &&
    (match (splitOnChar '@' e).get? 1 with
     | some dom => dom.contains '.'
     | none => false)

/-- Digits remaining after stripping phone formatting characters. -/
def cleanPhone (p : Str) : Str := p.filter Char.isDigit

/-- Required-name check of _validate_player_data. -/
def checkName (pd : PlayerData) : Except Str Unit :=
  if pd.name == [] then Except.error (str "Name is required") else Except.ok ()

/-- Position check of _validate_player_data: the Position enum constructor
raises on anything outside F, D, G. -/
def checkPosition (pd : PlayerData) : Except Str Unit :=
  if pd.position ≠ str "F" ∧ pd.position ≠ str "D" ∧ pd.position ≠ str "G" then
    Except.error (str "Invalid position: " ++ pd.position)
  else Except.ok ()

/-- Jersey range check of _validate_player_data. -/
def checkJersey (pd : PlayerData) : Except Str Unit :=
  match pd.jersey with
  | some j =>
    if ¬(1 ≤ j ∧ j ≤ 99) then
      Except.error (str "Jersey number must be between 1 and 99")
    else Except.ok ()
  | none => Except.ok ()

/-- Basic email shape check of _validate_player_data. -/
def checkEmail (pd : PlayerData) : Except Str Unit :=
  match pd.email with
  | some e =>
    if e ≠ [] ∧ emailFormatOk e = false then Except.error (str "Invalid email format")
    else Except.ok ()
  | none => Except.ok ()

/-- Basic phone shape check of _validate_player_data. -/
def checkPhone (pd : PlayerData) : Except Str Unit :=
  match pd.phone with
  | some ph =>
    if ph ≠ [] ∧ (cleanPhone ph).length < 10 then
      Except.error (str "Phone number too short")
    else Except.ok ()
  | none => Except.ok ()

/-- _validate_player_data: required name, valid position code, jersey range,
basic email and phone shape, in source order. -/
def validatePlayerData (pd : PlayerData) : Except Str Unit := do
  checkName pd
  checkPosition pd
  checkJersey pd
  checkEmail pd
  checkPhone pd

/-- Parse then validate one row; the first raised message wins. -/
def rowParseValidate (fns row : List Str) (team_id : Nat) : Except Str PlayerData := do
  let pd ← parsePlayerRow fns row team_id
  validatePlayerData pd
  pure pd

/-- _find_duplicate_player: first stored player with the same team and name. -/
def findDuplicatePlayer (db : DB) (pd : PlayerData) : Option Player :=
  db.players.find? (fun p => p.team_id == pd.team_id && p.name == pd.name)

/-- Position enum coercion performed by the Player constructor. -/
def positionOfString? (s : Str) : Option Position :=
  if s == str "F" then some Position.F
  else if s == str "D" then some Position.D
  else if s == str "G" then some Position.G
  else none

/-- Player(**player_data) with a fresh id; status falls back to the model
default Active when the column was blank. -/
def buildPlayer (id : Nat) (pd : PlayerData) (pos : Position) : Player :=
  { id := id, team_id := pd.team_id, name := pd.name, position := pos,
    jersey := pd.jersey, hand := pd.hand, birthdate := pd.birthdate,
    email := pd.email, phone := pd.phone,
    status := pd.status.getD PlayerStatus.ACTIVE }

/-- Join strings with a separator. -/
def joinSep (sep : Str) : List Str → Str
  | [] => []
  | [x] => x
  | x :: xs => x ++ sep ++ joinSep sep xs

/-- Python str() of the row dict, used as the value field of a general error
entry (repr escaping of exotic characters is outside the model). -/
def rowStr (fns row : List Str) : Str :=
  let pairs := (fns.zip row).map (fun kv =>
    str "\x27" ++ kv.1 ++ str "\x27: \x27" ++ kv.2 ++ str "\x27")
  str "\x7b" ++ joinSep (str ", ") pairs ++ str "\x7d"

/-- One entry of the import error list. -/
structure ErrEntry where
  row : Nat
  field : Str
  reason : Str
  value : Str
deriving DecidableEq

/-- Counters of CSVImportResult accumulated during the loop. -/
structure ImportAcc where
  imported : Nat := 0
  skipped : Nat := 0
  errors : List ErrEntry := []
deriving DecidableEq

/-- Final CSVImportResult (the best-effort issues side-file is outside the
model). -/
structure CSVImportResult where
  imported : Nat
  skipped : Nat
  errors : List ErrEntry
deriving DecidableEq

/-- Body of the import loop for one data row: a raised parse or validation
message becomes a general error entry, a duplicate becomes a name error entry,
otherwise the player is staged (visible to later duplicate checks, committed
later). -/
def importStep (fns : List Str) (team_id : Nat) (st : Session × ImportAcc)
    (rowNum : Nat) (row : List Str) : Session × ImportAcc :=
  match rowParseValidate fns row team_id with
  | Except.error e =>
    let entry : ErrEntry :=
      { row := rowNum, field := str "general", reason := e, value := rowStr fns row }
    (st.1, { st.2 with
             skipped := st.2.skipped + 1
             errors := st.2.errors ++ [entry] })
  | Except.ok pd =>
    match findDuplicatePlayer st.1.cur pd with
    | some _ =>
      let entry : ErrEntry :=
        { row := rowNum, field := str "name",
          reason := str "Duplicate player: " ++ pd.name, value := pd.name }
      (st.1, { st.2 with
               skipped := st.2.skipped + 1
               errors := st.2.errors ++ [entry] })
    | none =>
      match positionOfString? pd.position with
      | some pos =>
        ({ st.1 with cur :=
            { st.1.cur with
                players := st.1.cur.players ++ [buildPlayer st.1.cur.nextId pd pos]
                nextId := st.1.cur.nextId + 1 } },
         { st.2 with imported := st.2.imported + 1 })
      | none =>
        let entry : ErrEntry :=
          { row := rowNum, field := str "general",
            reason := str "Invalid position: " ++ pd.position, value := rowStr fns row }
        (st.1, { st.2 with
                 skipped := st.2.skipped + 1
                 errors := st.2.errors ++ [entry] })

/-- Process data rows sequentially, numbering from the given row number
(enumerate starts at 2: the header is row 1). -/
def importRowsAux (fns : List Str) (team_id : Nat) :
    Session → ImportAcc → Nat → List (List Str) → Session × ImportAcc
  | s, acc, _, [] => (s, acc)
  | s, acc, rowNum, row :: rest =>
    let st := importStep fns team_id (s, acc) rowNum row
    importRowsAux fns team_id st.1 st.2 (rowNum + 1) rest

/-- Columns of EXPECTED_HEADERS absent from the given header, kept in the
canonical EXPECTED_HEADERS order (Python iterates a set here, whose element
order is unspecified; only emptiness is behaviourally relevant). -/
def missingHeaders (fns : List Str) : List Str :=
  EXPECTED_HEADERS.filter (fun h => !(fns.contains h))

/-- import_players: header validation, per-row loop, one commit at the end when
at least one row succeeded; a header failure rolls back and rethrows. -/
def importPlayers (s : Session) (team_id : Nat) (fns : List Str)
    (rows : List (List Str)) : Session × Except Str CSVImportResult :=
  if fns.isEmpty then
    (s.rollback, Except.error (str "CSV import failed: CSV file is empty or invalid"))
  else if !(missingHeaders fns).isEmpty then
    (s.rollback,
      Except.error (str "CSV import failed: Missing required headers: " ++
        joinSep (str ", ") (missingHeaders fns)))
  else
    let st := importRowsAux fns team_id s {} 2 rows
    let s1 := if st.2.imported > 0 then st.1.commit else st.1
    (s1, Except.ok { imported := st.2.imported, skipped := st.2.skipped,
                     errors := st.2.errors })

/-- Jersey cell of an export row: blank for None and for a falsy 0. -/
def jerseyCell (jo : Option Int) : Str :=
  match jo with
  | some j => if j == 0 then [] else intDigits j
  | none => []

/-- Hand cell of an export row: the enum value or blank. -/
def handCell (ho : Option Hand) : Str :=
  match ho with
  | some h => h.value
  | none => []

/-- Birthdate cell of an export row: %Y-%m-%d or blank. -/
def dateCell (bo : Option PDate) : Str :=
  match bo with
  | some d => formatDate d
  | none => []

/-- One CSV row of export_players for a player: blank for absent optional
values (and for a falsy jersey of 0), enum values and %Y-%m-%d dates. -/
def playerToRow (p : Player) : List Str :=
  [p.name,
   p.position.value,
   jerseyCell p.jersey,
   handCell p.hand,
   dateCell p.birthdate,
   p.email.getD [],
   p.phone.getD [],
   p.status.value]

/-- export_players: the expected header plus one row per player of the team,
in storage order. -/
def exportPlayers (s : Session) (team_id : Nat) : List Str × List (List Str) :=
  (EXPECTED_HEADERS,
    (s.cur.players.filter (fun p => p.team_id == team_id)).map playerToRow)

/-! Teams router (src/routers/teams.py). -/

/-- HTTP error raised by the teams router. -/
structure HTTPError where
  status : Nat
  detail : Str
deriving DecidableEq

/-- create_team: duplicate (name, season) check, then insert and commit. -/
def createTeam (s : Session) (name season : Str) : Session × Except HTTPError Team :=
  match s.cur.teams.find? (fun t => t.name == name && t.season == season) with
  | some _ =>
    (s, Except.error
      { status := 409,
        detail := str "Team \x27" ++ name ++ str "\x27 already exists for season \x27" ++
          season ++ str "\x27" })
  | none =>
    let t : Team := { id := s.cur.nextId, name := name, season := season }
    (Session.commit
      { s with cur :=
          { s.cur with teams := s.cur.teams ++ [t], nextId := s.cur.nextId + 1 } },
      Except.ok t)

/-! Derived shapes and sample data used by the theorems below. -/

deriving instance DecidableEq for Except

/-! Registered equality deciders for the nested field-tuple type, built up one
component at a time so each one is small. -/

instance decEqF2 : DecidableEq (Option Str × PlayerStatus) :=
  instDecidableEqProd

instance decEqF3 : DecidableEq (Option Str × Option Str × PlayerStatus) :=
  instDecidableEqProd

instance decEqF4 : DecidableEq (Option PDate × Option Str × Option Str × PlayerStatus) :=
  instDecidableEqProd

instance decEqF5 :
    DecidableEq (Option Hand × Option PDate × Option Str × Option Str × PlayerStatus) :=
  instDecidableEqProd

instance decEqF6 :
    DecidableEq (Option Int × Option Hand × Option PDate × Option Str × Option Str ×
      PlayerStatus) :=
  instDecidableEqProd

instance decEqF7 :
    DecidableEq (Position × Option Int × Option Hand × Option PDate × Option Str ×
      Option Str × PlayerStatus) :=
  instDecidableEqProd

instance decEqF8 :
    DecidableEq (Str × Position × Option Int × Option Hand × Option PDate × Option Str ×
      Option Str × PlayerStatus) :=
  instDecidableEqProd

/-- Structural content of a slot: everything except its id and player. -/
def slotShape (sl : LineupSlot) : Nat × SlotType × Str × Nat :=
  (sl.template_id, sl.slot_type, sl.slot_label, sl.order_index)

/-- Slot rows the seeder inserts for a template, given the first fresh id. -/
def seededSlots (template_id firstId : Nat) : List (SlotType × Str × Nat) → List LineupSlot
  | [] => []
  | sp :: rest =>
    { id := firstId, template_id := template_id, slot_type := sp.1, slot_label := sp.2.1,
      order_index := sp.2.2, player_id := none } :: seededSlots template_id (firstId + 1) rest

/-- Warning entry bulk_update_slots records for a failed item. -/
def bulkErrorWarning (sid : Nat) (e : Str) : Warning :=
  { type := str "error",
    message := str "Failed to update slot " ++ natDigits sid ++ str ": " ++ e }

/-- The CSV-visible fields of a player (everything but id and team_id). -/
def playerFields (p : Player) :
    Str × Position × Option Int × Option Hand × Option PDate × Option Str ×
      Option Str × PlayerStatus :=
  (p.name, p.position, p.jersey, p.hand, p.birthdate, p.email, p.phone, p.status)

/-- Player data that parsing an exported row of p for team tid produces. -/
def pdOf (tid : Nat) (p : Player) : PlayerData :=
  { team_id := tid, name := p.name, position := p.position.value, jersey := p.jersey,
    hand := p.hand, birthdate := p.birthdate, email := p.email, phone := p.phone,
    status := some p.status }

/-- Copies of the given players as re-import inserts them: fresh sequential
ids, the target team, all other fields unchanged. -/
def reimportedPlayers (firstId tid : Nat) : List Player → List Player
  | [] => []
  | p :: rest =>
    { p with id := firstId, team_id := tid } :: reimportedPlayers (firstId + 1) tid rest

/-- Stored player fields that survive export followed by parse and validation:
trimmed non-empty name, jersey in 1..99, a constructible birthdate whose year
has four digits (strftime emits a year below 1000 unpadded and the strptime
%Y field of the re-import accepts exactly four digits, so such a birthdate
does not survive the round trip), trimmed non-empty email of the validated
shape, trimmed phone with at least ten digits. -/
def validStoredPlayer (p : Player) : Bool :=
  (pyStrip p.name == p.name) && !p.name.isEmpty &&
  p.jersey.all (fun j => decide (1 ≤ j ∧ j ≤ 99)) &&
  p.birthdate.all (fun d => decide (d.valid ∧ 1000 ≤ d.year)) &&
  p.email.all (fun e => (pyStrip e == e) && !e.isEmpty && emailFormatOk e) &&
  p.phone.all (fun ph =>
    (pyStrip ph == ph) && !ph.isEmpty && decide (10 ≤ (cleanPhone ph).length))

/-- Pairwise distinctness of the (name, season) pairs of a team list. -/
def teamsUnique (ts : List Team) : Prop :=
  ts.Pairwise (fun a b => ¬(a.name = b.name ∧ a.season = b.season))

/-- Sample data: a home team with a forward and an away team with a defender. -/
def alice : Player := { id := 2, team_id := 1, name := str "Alice", position := Position.F }

/-- Player on the other team. -/
def eve : Player := { id := 3, team_id := 2, name := str "Eve", position := Position.D }

/-- Two teams and the two players above. -/
def sampleDB : DB :=
  { teams := [{ id := 1, name := str "Home", season := str "2024" },
              { id := 2, name := str "Away", season := str "2024" }],
    players := [alice, eve], nextId := 4 }

/-- Fresh session over the sample database. -/
def sampleSession : Session := Session.fromDB sampleDB

/-- Session after creating a lineup template (id 4) for team 1; its 20 slots
have ids 5 to 24; slot 5 is FWD1 LW, slot 6 is FWD1 C. -/
def sampleLineup : Session := (createLineupTemplate sampleSession 1 (str "Game1") none).1

/-- Session with Alice assigned to slot 5. -/
def oneAssigned : Session := (assignPlayerToSlot sampleLineup 5 (some 2)).1

/-- Session with Alice assigned to both slot 5 and slot 6. -/
def twoAssigned : Session := (assignPlayerToSlot oneAssigned 6 (some 2)).1

/-- A CSV data row with a name and a position, other columns blank. -/
def csvRow (name pos : String) : List Str :=
  [str name, str pos, [], [], [], [], [], []]

/-- Database with two teams and no players, used as an import target. -/
def importDB : DB :=
  { teams := [{ id := 1, name := str "Home", season := str "2024" },
              { id := 9, name := str "Fresh", season := str "2025" }], nextId := 10 }

/-- A forward called Bob on team 1. -/
def bobF : Player := { id := 2, team_id := 1, name := str "Bob", position := Position.F }

/-- A defender also called Bob on team 1 (the player-creation API does not
forbid duplicate names). -/
def bobD : Player := { id := 3, team_id := 1, name := str "Bob", position := Position.D }

/-- Team 1 with two players sharing a name, plus an empty target team 9. -/
def dupNameDB : DB :=
  { teams := [{ id := 1, name := str "Home", season := str "2024" },
              { id := 9, name := str "Fresh", season := str "2025" }],
    players := [bobF, bobD], nextId := 10 }

/-! Support lemmas: decimal digits, splitting, stripping, dates. -/

theorem natDigitsAux_spec (n : Nat) : ∀ fuel acc, n < fuel →
    natDigitsAux fuel n acc = natDigits n ++ acc := by
  induction n using Nat.strong_induction_on with
  | _ n ih =>
    intro fuel acc hfuel
    match fuel with
    | 0 => omega
    | f + 1 =>
      by_cases h10 : n < 10
      · simp [natDigitsAux, h10, natDigits]
      · have hdiv : n / 10 < n := Nat.div_lt_self (by omega) (by omega)
        have hstep : natDigitsAux (f + 1) n acc =
            natDigitsAux f (n / 10) (Nat.digitChar (n % 10) :: acc) := by
          simp [natDigitsAux, h10]
        have hrhs : natDigits n =
            natDigits (n / 10) ++ [Nat.digitChar (n % 10)] := by
          have : natDigits n = natDigitsAux n (n / 10) [Nat.digitChar (n % 10)] := by
            simp [natDigits, natDigitsAux, h10]
          rw [this, ih (n / 10) hdiv n _ (by omega)]
        rw [hstep, ih (n / 10) hdiv f _ (by omega), hrhs, List.append_assoc]
        rfl

theorem natDigits_lt10 (n : Nat) (h : n < 10) : natDigits n = [Nat.digitChar n] := by
  simp [natDigits, natDigitsAux, h]

theorem natDigits_ge10 (n : Nat) (h : 10 ≤ n) :
    natDigits n = natDigits (n / 10) ++ [Nat.digitChar (n % 10)] := by
  have h10 : ¬n < 10 := by omega
  have : natDigits n = natDigitsAux n (n / 10) [Nat.digitChar (n % 10)] := by
    simp [natDigits, natDigitsAux, h10]
  rw [this, natDigitsAux_spec (n / 10) n _ (Nat.div_lt_self (by omega) (by omega))]

theorem natDigits_ne_nil (n : Nat) : natDigits n ≠ [] := by
  by_cases h : n < 10
  · simp [natDigits_lt10 n h]
  · rw [natDigits_ge10 n (by omega)]
    simp

theorem digitChar_isDigit (d : Nat) (h : d < 10) : (Nat.digitChar d).isDigit = true := by
  interval_cases d <;> rfl

theorem digitVal?_digitChar (d : Nat) (h : d < 10) :
    digitVal? (Nat.digitChar d) = some d := by
  interval_cases d <;> rfl

theorem natDigits_all_digit (n : Nat) : ∀ c ∈ natDigits n, c.isDigit = true := by
  induction n using Nat.strong_induction_on with
  | _ n ih =>
    by_cases h : n < 10
    · rw [natDigits_lt10 n h]
      intro c hc
      simp at hc
      subst hc
      exact digitChar_isDigit n h
    · rw [natDigits_ge10 n (by omega)]
      intro c hc
      rcases List.mem_append.mp hc with h1 | h2
      · exact ih (n / 10) (Nat.div_lt_self (by omega) (by omega)) c h1
      · simp at h2
        subst h2
        exact digitChar_isDigit (n % 10) (Nat.mod_lt n (by omega))

theorem parseNatAux_append (a : Nat) (xs ys : Str) :
    parseNatAux a (xs ++ ys) =
      match parseNatAux a xs with
      | some b => parseNatAux b ys
      | none => none := by
  induction xs generalizing a with
  | nil => simp [parseNatAux]
  | cons c cs ihc =>
    simp only [List.cons_append, parseNatAux]
    cases digitVal? c with
    | none => simp
    | some d => simp [ihc]

theorem parseNatAux_natDigits (n : Nat) : ∀ a,
    parseNatAux a (natDigits n) = some (a * 10 ^ (natDigits n).length + n) := by
  induction n using Nat.strong_induction_on with
  | _ n ih =>
    intro a
    by_cases h : n < 10
    · rw [natDigits_lt10 n h]
      simp [parseNatAux, digitVal?_digitChar n h]
    · rw [natDigits_ge10 n (by omega), parseNatAux_append]
      rw [ih (n / 10) (Nat.div_lt_self (by omega) (by omega)) a]
      simp only [parseNatAux, digitVal?_digitChar (n % 10) (Nat.mod_lt n (by omega))]
      have hlen : (natDigits (n / 10) ++ [Nat.digitChar (n % 10)]).length =
          (natDigits (n / 10)).length + 1 := by simp
      rw [hlen]
      congr 1
      have hmod : n % 10 + 10 * (n / 10) = n := Nat.mod_add_div n 10
      ring_nf
      omega

theorem parseNat?_natDigits (n : Nat) : parseNat? (natDigits n) = some n := by
  have hne := natDigits_ne_nil n
  have := parseNatAux_natDigits n 0
  match hd : natDigits n with
  | [] => exact absurd hd hne
  | c :: cs =>
    rw [hd] at this
    simp only [parseNat?]
    rw [this]
    simp

theorem natDigits_length_le (k : Nat) : ∀ n, 1 ≤ k → n < 10 ^ k →
    (natDigits n).length ≤ k := by
  induction k with
  | zero => omega
  | succ k ihk =>
    intro n _ hlt
    by_cases h : n < 10
    · rw [natDigits_lt10 n h]
      simp only [List.length_singleton]
      omega
    · rw [natDigits_ge10 n (by omega)]
      have hk1 : 1 ≤ k := by
        by_contra hk
        have : k = 0 := by omega
        subst this
        simp at hlt
        omega
      have hdivlt : n / 10 < 10 ^ k := by
        rw [Nat.div_lt_iff_lt_mul (by omega)]
        calc n < 10 ^ (k + 1) := hlt
        _ = 10 ^ k * 10 := by ring
      have := ihk (n / 10) hk1 hdivlt
      simp
      omega

theorem isDigit_not_dash (c : Char) (h : c.isDigit = true) : (c == '-') = false := by
  by_contra hcon
  have : c = '-' := by
    cases hbe : c == '-'
    · simp [hbe] at hcon
    · exact eq_of_beq hbe
  subst this
  simp [Char.isDigit] at h

theorem isDigit_not_plus (c : Char) (h : c.isDigit = true) : (c == '+') = false := by
  by_contra hcon
  have : c = '+' := by
    cases hbe : c == '+'
    · simp [hbe] at hcon
    · exact eq_of_beq hbe
  subst this
  simp [Char.isDigit] at h

theorem parseInt?_natDigits (n : Nat) : parseInt? (natDigits n) = some (n : Int) := by
  match hd : natDigits n with
  | [] => exact absurd hd (natDigits_ne_nil n)
  | c :: cs =>
    have hc : c.isDigit = true := by
      apply natDigits_all_digit n
      rw [hd]
      simp
    have h1 := isDigit_not_dash c hc
    have h2 := isDigit_not_plus c hc
    have hp : parseNat? (c :: cs) = some n := by
      rw [← hd]
      exact parseNat?_natDigits n
    simp [parseInt?, h1, h2, hp]

theorem splitOnChar_ne_nil (sep : Char) (s : Str) : splitOnChar sep s ≠ [] := by
  cases s with
  | nil => simp [splitOnChar]
  | cons c rest =>
    simp only [splitOnChar]
    cases splitOnChar sep rest with
    | nil =>
      by_cases h : c == sep
      · simp [h]
      · simp [h]
    | cons g gs =>
      by_cases h : c == sep
      · simp [h]
      · simp [h]

theorem splitOnChar_no_sep (sep : Char) (s : Str) (h : ∀ c ∈ s, (c == sep) = false) :
    splitOnChar sep s = [s] := by
  induction s with
  | nil => rfl
  | cons c rest ihr =>
    have hc : (c == sep) = false := h c (by simp)
    have hrest : splitOnChar sep rest = [rest] := by
      apply ihr
      intro x hx
      exact h x (by simp [hx])
    simp [splitOnChar, hrest, hc]

theorem splitOnChar_append (sep : Char) (xs ys : Str)
    (h : ∀ c ∈ xs, (c == sep) = false) :
    splitOnChar sep (xs ++ sep :: ys) = xs :: splitOnChar sep ys := by
  induction xs with
  | nil =>
    simp only [List.nil_append, splitOnChar]
    match hsp : splitOnChar sep ys with
    | [] => exact absurd hsp (splitOnChar_ne_nil sep ys)
    | g :: gs => simp
  | cons c rest ihr =>
    have hc : (c == sep) = false := h c (by simp)
    have hrest := ihr (fun x hx => h x (by simp [hx]))
    simp only [List.cons_append, splitOnChar, List.append_eq]
    rw [hrest]
    simp [hc]

theorem isDigit_not_whitespace (c : Char) (h : c.isDigit = true) :
    c.isWhitespace = false := by
  cases hx : c.isWhitespace
  · rfl
  · exfalso
    simp [Char.isWhitespace, or_assoc] at hx
    rcases hx with h1 | h1 | h1 | h1 <;> (subst h1; simp [Char.isDigit] at h)

theorem pyStrip_no_ws (s : Str) (h : ∀ c ∈ s, c.isWhitespace = false) :
    pyStrip s = s := by
  unfold pyStrip
  have h1 : s.dropWhile Char.isWhitespace = s := by
    apply List.dropWhile_eq_self_iff.mpr
    intro hne
    have hm : s.get ⟨0, hne⟩ ∈ s := s.get_mem 0 hne
    rw [h _ hm]
    simp
  rw [h1]
  have h2 : s.reverse.dropWhile Char.isWhitespace = s.reverse := by
    apply List.dropWhile_eq_self_iff.mpr
    intro hne
    have hm : s.reverse.get ⟨0, hne⟩ ∈ s.reverse := s.reverse.get_mem 0 hne
    rw [h _ (List.mem_reverse.mp hm)]
    simp
  rw [h2, List.reverse_reverse]

theorem pad2_all_digit (n : Nat) : ∀ c ∈ pad2 n, c.isDigit = true := by
  unfold pad2
  by_cases h : n < 10
  · simp only [h, if_pos]
    intro c hc
    rcases List.mem_cons.mp hc with h1 | h1
    · subst h1
      rfl
    · exact natDigits_all_digit n c h1
  · simp only [h, if_neg, not_false_iff]
    exact natDigits_all_digit n

theorem parseNat?_pad2 (n : Nat) : parseNat? (pad2 n) = some n := by
  unfold pad2
  by_cases h : n < 10
  · simp only [h, if_pos]
    have hne := natDigits_ne_nil n
    have haux := parseNatAux_natDigits n 0
    simp only [parseNat?, parseNatAux]
    have h0 : digitVal? '0' = some 0 := rfl
    rw [h0]
    simpa using haux
  · simp only [h, if_neg, not_false_iff]
    exact parseNat?_natDigits n

theorem pad2_length (n : Nat) (h : n < 100) :
    1 ≤ (pad2 n).length ∧ (pad2 n).length ≤ 2 := by
  unfold pad2
  by_cases h10 : n < 10
  · simp only [h10, if_pos, List.length_cons]
    rw [natDigits_lt10 n h10]
    simp
  · simp only [h10, if_neg, not_false_iff]
    constructor
    · have := natDigits_ne_nil n
      cases hd : natDigits n with
      | nil => exact absurd hd this
      | cons a l => simp
    · exact natDigits_length_le 2 n (by omega) h

theorem parseDateField?_pad2 (n : Nat) (h : n < 100) :
    parseDateField? (pad2 n) 2 = some n := by
  unfold parseDateField?
  rw [if_pos]
  · exact parseNat?_pad2 n
  · refine ⟨(pad2_length n h).1, (pad2_length n h).2, ?_⟩
    rw [List.all_eq_true]
    exact pad2_all_digit n

theorem natDigits_length_ge (k : Nat) : ∀ n, 10 ^ k ≤ n →
    k + 1 ≤ (natDigits n).length := by
  induction k with
  | zero =>
    intro n _
    have := natDigits_ne_nil n
    cases hd : natDigits n with
    | nil => exact absurd hd this
    | cons a l => simp
  | succ k ihk =>
    intro n hge
    have h10 : 10 ≤ n := by
      have h1 : 10 ^ 1 ≤ 10 ^ (k + 1) := Nat.pow_le_pow_right (by omega) (by omega)
      simpa using le_trans h1 hge
    rw [natDigits_ge10 n h10]
    have hdiv : 10 ^ k ≤ n / 10 := by
      rw [Nat.le_div_iff_mul_le (by omega)]
      calc 10 ^ k * 10 = 10 ^ (k + 1) := by ring
      _ ≤ n := hge
    have := ihk (n / 10) hdiv
    simp
    omega

theorem parseYearField?_natDigits (n : Nat) (h1 : 1000 ≤ n) (h2 : n ≤ 9999) :
    parseYearField? (natDigits n) = some n := by
  unfold parseYearField?
  rw [if_pos]
  · exact parseNat?_natDigits n
  · constructor
    · have hle := natDigits_length_le 4 n (by omega) (by omega)
      have hge : 3 + 1 ≤ (natDigits n).length := by
        apply natDigits_length_ge 3 n
        have : (10:Nat) ^ 3 = 1000 := by norm_num
        omega
      omega
    · rw [List.all_eq_true]
      exact natDigits_all_digit n

theorem formatDate_split (d : PDate) :
    splitOnChar '-' (formatDate d) = [natDigits d.year, pad2 d.month, pad2 d.day] := by
  unfold formatDate
  rw [splitOnChar_append '-' (natDigits d.year) _
    (fun c hc => isDigit_not_dash c (natDigits_all_digit d.year c hc))]
  rw [splitOnChar_append '-' (pad2 d.month) _
    (fun c hc => isDigit_not_dash c (pad2_all_digit d.month c hc))]
  rw [splitOnChar_no_sep '-' (pad2 d.day)
    (fun c hc => isDigit_not_dash c (pad2_all_digit d.day c hc))]

theorem parseYMD?_formatDate (d : PDate) (h : d.valid) (hy : 1000 ≤ d.year) :
    parseYMD? (formatDate d) = some d := by
  have hy2 : d.year ≤ 9999 := h.2.1
  have hm : d.month < 100 := by
    have := h.2.2.2.1
    omega
  have hd : d.day < 100 := by
    have hle := h.2.2.2.2.2
    have : daysInMonth d.year d.month ≤ 31 := by
      unfold daysInMonth
      by_cases h2 : (d.month == 2) = true <;> by_cases hl : isLeapYear d.year = true <;>
        simp [h2, hl] <;> split <;> omega
    omega
  unfold parseYMD?
  rw [formatDate_split d]
  simp only [parseYearField?_natDigits d.year hy hy2, parseDateField?_pad2 d.month hm,
    parseDateField?_pad2 d.day hd, Option.bind_eq_bind, Option.some_bind]
  unfold mkDate?
  rw [if_pos h]

theorem parseBirthdate?_formatDate (d : PDate) (h : d.valid) (hy : 1000 ≤ d.year) :
    parseBirthdate? (formatDate d) = some d := by
  unfold parseBirthdate?
  rw [parseYMD?_formatDate d h hy]

/-! Shared facts about assign_player_to_slot outcomes. -/

theorem assign_ok_spec (s : Session) (slot_id : Nat) (pid : Option Nat) (s1 : Session)
    (r : AssignResult) (h : assignPlayerToSlot s slot_id pid = (s1, Except.ok r)) :
    s1 = Session.commit { s with cur := s.cur.setSlotPlayer slot_id pid } ∧
    r.success = true ∧ r.slot_id = slot_id ∧ r.player_id = pid := by
  unfold assignPlayerToSlot at h
  cases hs : s.cur.getSlot slot_id with
  | none =>
    simp only [hs] at h
    simp at h
  | some slot =>
    simp only [hs] at h
    cases ht : s.cur.getTemplate slot.template_id with
    | none =>
      simp only [ht] at h
      simp at h
    | some template =>
      simp only [ht] at h
      cases pid with
      | none =>
        simp only [Prod.mk.injEq, Except.ok.injEq] at h
        obtain ⟨h1, h2⟩ := h
        subst h1
        subst h2
        exact ⟨rfl, rfl, rfl, rfl⟩
      | some p =>
        cases hp : s.cur.getPlayer p with
        | none =>
          simp only [hp] at h
          simp at h
        | some player =>
          simp only [hp] at h
          by_cases hteam : player.team_id = template.team_id
          · have hcond : ¬(player.team_id ≠ template.team_id) := by simpa using hteam
            rw [if_neg hcond] at h
            simp only [Prod.mk.injEq, Except.ok.injEq] at h
            obtain ⟨h1, h2⟩ := h
            subst h1
            subst h2
            exact ⟨rfl, rfl, rfl, rfl⟩
          · rw [if_pos hteam] at h
            simp at h

theorem assign_error_spec (s : Session) (slot_id : Nat) (pid : Option Nat) (s1 : Session)
    (e : Str) (h : assignPlayerToSlot s slot_id pid = (s1, Except.error e)) : s1 = s := by
  unfold assignPlayerToSlot at h
  cases hs : s.cur.getSlot slot_id with
  | none =>
    simp only [hs] at h
    simp only [Prod.mk.injEq] at h
    exact h.1.symm
  | some slot =>
    simp only [hs] at h
    cases ht : s.cur.getTemplate slot.template_id with
    | none =>
      simp only [ht] at h
      simp only [Prod.mk.injEq] at h
      exact h.1.symm
    | some template =>
      simp only [ht] at h
      cases pid with
      | none => simp at h
      | some p =>
        cases hp : s.cur.getPlayer p with
        | none =>
          simp only [hp] at h
          simp only [Prod.mk.injEq] at h
          exact h.1.symm
        | some player =>
          simp only [hp] at h
          by_cases hteam : player.team_id = template.team_id
          · have hcond : ¬(player.team_id ≠ template.team_id) := by simpa using hteam
            rw [if_neg hcond] at h
            simp at h
          · rw [if_pos hteam] at h
            simp only [Prod.mk.injEq] at h
            exact h.1.symm

/-- C3: when the slot, its template and the player all exist but the player is
on a different team than the template, assign_player_to_slot fails with the
cross-team ServiceError and returns the session completely unchanged: no slot,
player, template, committed state or commit counter is touched. -/
theorem C3_cross_team_assignment_rejected (s : Session) (slot_id pid : Nat)
    (slot : LineupSlot) (template : LineupTemplate) (player : Player)
    (hs : s.cur.getSlot slot_id = some slot)
    (ht : s.cur.getTemplate slot.template_id = some template)
    (hp : s.cur.getPlayer pid = some player)
    (hteam : player.team_id ≠ template.team_id) :
    assignPlayerToSlot s slot_id (some pid) =
      (s, Except.error (str "Player must be on the same team as the lineup template")) := by
  simp only [assignPlayerToSlot, hs, ht, hp]
  simp [hteam]

theorem C3_cross_team_assignment_rejected_witness :
    assignPlayerToSlot sampleLineup 5 (some 3) =
      (sampleLineup,
        Except.error (str "Player must be on the same team as the lineup template")) :=
  C3_cross_team_assignment_rejected sampleLineup 5 3
    { id := 5, template_id := 4, slot_type := SlotType.FWD,
      slot_label := str "FWD1 LW", order_index := 10 }
    { id := 4, team_id := 1, name := str "Game1" }
    eve (by decide) (by decide) (by decide) (by decide)

/-- C10: a successful assign changes only the player_id of the addressed slot.
Teams, players, templates and the id sequence are untouched, every slot keeps
its structural fields, every other slot (including one that already held the
player) is unchanged bit for bit, and the updated current state is committed
exactly once. -/
theorem C10_assign_frame (s : Session) (slot_id : Nat) (pid : Option Nat)
    (s1 : Session) (r : AssignResult)
    (h : assignPlayerToSlot s slot_id pid = (s1, Except.ok r)) :
    s1.cur.teams = s.cur.teams ∧
    s1.cur.players = s.cur.players ∧
    s1.cur.templates = s.cur.templates ∧
    s1.cur.nextId = s.cur.nextId ∧
    s1.cur.slots = s.cur.slots.map (fun sl =>
      if sl.id == slot_id then { sl with player_id := pid } else sl) ∧
    (∀ sl ∈ s.cur.slots, sl.id ≠ slot_id → sl ∈ s1.cur.slots) ∧
    s1.committed = s1.cur ∧
    s1.commits = s.commits + 1 := by
  obtain ⟨hs1, -, -, -⟩ := assign_ok_spec s slot_id pid s1 r h
  subst hs1
  refine ⟨rfl, rfl, rfl, rfl, rfl, ?_, rfl, rfl⟩
  intro sl hmem hne
  have hbe : (sl.id == slot_id) = false := by
    cases hx : sl.id == slot_id
    · rfl
    · exact absurd (by simpa using hx) hne
  have hmem2 := List.mem_map_of_mem
    (fun sl => if sl.id == slot_id then { sl with player_id := pid } else sl) hmem
  simpa [Session.commit, DB.setSlotPlayer, hbe] using hmem2

theorem C10_assign_frame_witness :
    (assignPlayerToSlot sampleLineup 5 (some 2)).1.cur.players = sampleLineup.cur.players ∧
    (assignPlayerToSlot sampleLineup 5 (some 2)).1.cur.slots =
      sampleLineup.cur.slots.map (fun sl =>
        if sl.id == 5 then { sl with player_id := some 2 } else sl) ∧
    (assignPlayerToSlot sampleLineup 5 (some 2)).1.commits = sampleLineup.commits + 1 := by
  have h := C10_assign_frame sampleLineup 5 (some 2)
    (assignPlayerToSlot sampleLineup 5 (some 2)).1
    { success := true, slot_id := 5, player_id := some 2, warnings := [] }
    (by decide)
  exact ⟨h.2.1, h.2.2.2.2.1, h.2.2.2.2.2.2.2⟩

theorem find?_append_none {α : Type} (p : α → Bool) (l1 l2 : List α)
    (h : l1.find? p = none) : (l1 ++ l2).find? p = l2.find? p := by
  induction l1 with
  | nil => rfl
  | cons a as ih =>
    have hpa : p a = false := by
      have := List.find?_eq_none.mp h a (by simp)
      cases hx : p a
      · rfl
      · exact absurd hx this
    have htail : as.find? p = none := by
      rw [List.find?_eq_none]
      intro x hx
      exact List.find?_eq_none.mp h x (by simp [hx])
    simp only [List.cons_append, List.find?, hpa]
    exact ih htail

/-- C9: creating a team whose (name, season) pair is free succeeds and appends
exactly one team row; an immediately repeated identical request fails with
HTTP 409 Conflict and changes nothing; and every create_team call preserves
pairwise uniqueness of (name, season) across the team table. -/
theorem C9_team_name_season_unique (s : Session) (name season : Str)
    (hfree : ∀ t ∈ s.cur.teams, ¬(t.name = name ∧ t.season = season)) :
    (createTeam s name season).2 =
      Except.ok { id := s.cur.nextId, name := name, season := season } ∧
    (createTeam s name season).1.cur.teams =
      s.cur.teams ++ [{ id := s.cur.nextId, name := name, season := season }] ∧
    (createTeam (createTeam s name season).1 name season).2 =
      Except.error
        { status := 409,
          detail := str "Team \x27" ++ name ++ str "\x27 already exists for season \x27" ++
            season ++ str "\x27" } ∧
    (createTeam (createTeam s name season).1 name season).1 =
      (createTeam s name season).1 ∧
    (∀ s0 : Session, ∀ n se : Str, teamsUnique s0.cur.teams →
      teamsUnique (createTeam s0 n se).1.cur.teams) := by
  have hfind : s.cur.teams.find? (fun t => t.name == name && t.season == season) = none := by
    rw [List.find?_eq_none]
    intro t ht
    have hft := hfree t ht
    simp only [Bool.and_eq_true, beq_iff_eq]
    tauto
  have hfind2 :
      (s.cur.teams ++ [({ id := s.cur.nextId, name := name, season := season } : Team)]).find?
          (fun (t : Team) => t.name == name && t.season == season) =
        some { id := s.cur.nextId, name := name, season := season } := by
    rw [find?_append_none _ _ _ hfind]
    simp [List.find?]
  refine ⟨?_, ?_, ?_, ?_, ?_⟩
  · simp [createTeam, hfind]
  · simp [createTeam, hfind, Session.commit]
  · simp only [createTeam, hfind]
    simp only [Session.commit]
    rw [hfind2]
  · simp only [createTeam, hfind]
    simp only [Session.commit]
    rw [hfind2]
  · intro s0 n se hu
    unfold createTeam
    cases hf : s0.cur.teams.find? (fun t => t.name == n && t.season == se) with
    | some t => simpa using hu
    | none =>
      simp only [Session.commit]
      unfold teamsUnique at hu ⊢
      rw [List.pairwise_append]
      refine ⟨hu, by simp, ?_⟩
      intro a ha b hb
      have hpa := List.find?_eq_none.mp hf a ha
      simp only [Bool.and_eq_true, beq_iff_eq] at hpa
      have hb1 : b = { id := s0.cur.nextId, name := n, season := se } := by
        simpa using hb
      subst hb1
      simp only []
      tauto

theorem C9_team_name_season_unique_witness :
    (createTeam (Session.fromDB {}) (str "Home") (str "2024")).2 =
      Except.ok { id := 1, name := str "Home", season := str "2024" } ∧
    (createTeam (createTeam (Session.fromDB {}) (str "Home") (str "2024")).1
        (str "Home") (str "2024")).1 =
      (createTeam (Session.fromDB {}) (str "Home") (str "2024")).1 := by
  have h := C9_team_name_season_unique (Session.fromDB {}) (str "Home") (str "2024")
    (by decide)
  exact ⟨h.1, h.2.2.2.1⟩

/-! Slot seeding and structural preservation. -/

theorem seededSlots_length (tid : Nat) (specs : List (SlotType × Str × Nat)) :
    ∀ fid, (seededSlots tid fid specs).length = specs.length := by
  induction specs with
  | nil => intro fid; rfl
  | cons sp rest ih =>
    intro fid
    simp only [seededSlots, List.length_cons, ih]

theorem seedFold_spec (specs : List (SlotType × Str × Nat)) : ∀ (db : DB) (tid : Nat),
    specs.foldl (fun d sp => d.insertSlot tid sp) db =
      { db with slots := db.slots ++ seededSlots tid db.nextId specs,
                nextId := db.nextId + specs.length } := by
  induction specs with
  | nil =>
    intro db tid
    simp [seededSlots]
  | cons sp rest ih =>
    intro db tid
    simp only [List.foldl_cons, ih]
    simp only [DB.insertSlot, seededSlots]
    simp [List.append_assoc]
    omega

theorem map_slotShape_update (slots : List LineupSlot) (sid : Nat) (pid : Option Nat) :
    ((slots.map (fun sl =>
        if sl.id == sid then { sl with player_id := pid } else sl)).map slotShape) =
      slots.map slotShape := by
  induction slots with
  | nil => rfl
  | cons a as ih =>
    simp only [List.map_cons, ih]
    cases h : a.id == sid <;> simp [h, slotShape]

theorem assign_shape (s : Session) (sid : Nat) (pid : Option Nat) :
    ((assignPlayerToSlot s sid pid).1.cur.slots).map slotShape =
      s.cur.slots.map slotShape := by
  rcases hout : assignPlayerToSlot s sid pid with ⟨s1, r⟩
  cases r with
  | error e =>
    have hse := assign_error_spec s sid pid s1 e hout
    subst hse
    rfl
  | ok r =>
    have h := (assign_ok_spec s sid pid s1 r hout).1
    subst h
    simp only [Session.commit, DB.setSlotPlayer]
    exact map_slotShape_update s.cur.slots sid pid

theorem bulkStep_shape (acc : Session × List Nat × List Warning) (item : BulkItem) :
    ((bulkStep acc item).1.cur.slots).map slotShape = (acc.1.cur.slots).map slotShape := by
  cases hi : item.slot_id with
  | none => simp [bulkStep, hi]
  | some sid =>
    simp only [bulkStep, hi]
    rcases hres : assignPlayerToSlot acc.1 sid item.player_id with ⟨s2, r2⟩
    have hsh := assign_shape acc.1 sid item.player_id
    rw [hres] at hsh
    cases r2 with
    | error e => simpa using hsh
    | ok r => simpa using hsh

theorem bulkFold_shape (items : List BulkItem) :
    ∀ acc : Session × List Nat × List Warning,
      ((items.foldl bulkStep acc).1.cur.slots).map slotShape =
        (acc.1.cur.slots).map slotShape := by
  induction items with
  | nil => intro acc; rfl
  | cons item rest ih =>
    intro acc
    rw [List.foldl_cons, ih (bulkStep acc item), bulkStep_shape]

theorem bulk_shape (s : Session) (tid : Nat) (items : List BulkItem) :
    ((bulkUpdateSlots s tid items).1.cur.slots).map slotShape =
      s.cur.slots.map slotShape := by
  unfold bulkUpdateSlots
  cases ht : s.cur.getTemplate tid with
  | none => rfl
  | some t =>
    simp only [Session.commit]
    exact bulkFold_shape items (s, [], [])

theorem save_shape (s : Session) (tid : Nat) :
    ((saveLineup s tid).1.cur.slots).map slotShape = s.cur.slots.map slotShape := by
  unfold saveLineup
  cases ht : s.cur.getTemplate tid with
  | none => rfl
  | some t => rfl

/-- C1 counterexample: on the sample database (no pre-existing slots) the
newly created template receives 20 slots, so the claimed total of exactly 16
is false. -/
theorem C1_sixteen_slots_counterexample :
    sampleSession.cur.slots.length = 0 ∧
    (createLineupTemplate sampleSession 1 (str "Game1") none).1.cur.slots.length = 20 ∧
    ¬((createLineupTemplate sampleSession 1 (str "Game1") none).1.cur.slots.length = 16) := by
  decide

/-- C1 amended: creating a lineup template for an existing team succeeds and
appends exactly 20 seeded slots (the claimed inventory counts 4*3 + 3*2 + 2 =
20, not 16): forward lines 1..4 with positions LW, C, RW, label
"FWD(line) (position)" and order_index line*10+position_index; defense pairs
1..3 with L, R, label "DEF(pair) (position)" and order_index
100+pair*10+position_index; goalie slots Starter, Backup with label
"G (label)" and order_index 200+index.  The structural slot set is a
deterministic function of the fresh template id, and no slot-touching
operation afterwards (assign, bulk assign, save) adds, removes or alters the
structure of any slot. -/
theorem C1_template_seeding (s : Session) (team_id : Nat) (name : Str)
    (notes : Option Str) (team : Team) (ht : s.cur.getTeam team_id = some team) :
    (createLineupTemplate s team_id name notes).2 =
      Except.ok { id := s.cur.nextId, team_id := team_id, name := name, notes := notes } ∧
    (createLineupTemplate s team_id name notes).1.cur.slots =
      s.cur.slots ++ seededSlots s.cur.nextId (s.cur.nextId + 1) seedSpecs ∧
    (seededSlots s.cur.nextId (s.cur.nextId + 1) seedSpecs).length = 20 ∧
    (∀ tid fid, (seededSlots tid fid seedSpecs).map slotShape =
      seedSpecs.map (fun sp => (tid, sp))) ∧
    seedSpecs =
      [(SlotType.FWD, str "FWD1 LW", 10), (SlotType.FWD, str "FWD1 C", 11),
       (SlotType.FWD, str "FWD1 RW", 12), (SlotType.FWD, str "FWD2 LW", 20),
       (SlotType.FWD, str "FWD2 C", 21), (SlotType.FWD, str "FWD2 RW", 22),
       (SlotType.FWD, str "FWD3 LW", 30), (SlotType.FWD, str "FWD3 C", 31),
       (SlotType.FWD, str "FWD3 RW", 32), (SlotType.FWD, str "FWD4 LW", 40),
       (SlotType.FWD, str "FWD4 C", 41), (SlotType.FWD, str "FWD4 RW", 42),
       (SlotType.DEF, str "DEF1 L", 110), (SlotType.DEF, str "DEF1 R", 111),
       (SlotType.DEF, str "DEF2 L", 120), (SlotType.DEF, str "DEF2 R", 121),
       (SlotType.DEF, str "DEF3 L", 130), (SlotType.DEF, str "DEF3 R", 131),
       (SlotType.G, str "G Starter", 200), (SlotType.G, str "G Backup", 201)] ∧
    (∀ s2 sid pid, ((assignPlayerToSlot s2 sid pid).1.cur.slots).map slotShape =
      s2.cur.slots.map slotShape) ∧
    (∀ s2 tid items, ((bulkUpdateSlots s2 tid items).1.cur.slots).map slotShape =
      s2.cur.slots.map slotShape) ∧
    (∀ s2 tid, ((saveLineup s2 tid).1.cur.slots).map slotShape =
      s2.cur.slots.map slotShape) := by
  have hshape : ∀ tid fid specs, (seededSlots tid fid specs).map slotShape =
      specs.map (fun sp => (tid, sp)) := by
    intro tid fid specs
    induction specs generalizing fid with
    | nil => rfl
    | cons sp rest ih =>
      simp only [seededSlots, List.map_cons, ih, slotShape]
  refine ⟨?_, ?_, ?_, fun tid fid => hshape tid fid seedSpecs, by decide, ?_, ?_, ?_⟩
  · simp [createLineupTemplate, ht]
  · simp only [createLineupTemplate, ht, seedLineupSlots, Session.commit]
    rw [seedFold_spec]
  · rw [seededSlots_length]
    decide
  · exact assign_shape
  · exact bulk_shape
  · exact save_shape

theorem C1_template_seeding_witness :
    (createLineupTemplate sampleSession 1 (str "Game1") none).1.cur.slots =
      sampleSession.cur.slots ++ seededSlots 4 5 seedSpecs ∧
    (seededSlots 4 5 seedSpecs).length = 20 := by
  have h := C1_template_seeding sampleSession 1 (str "Game1") none
    { id := 1, name := str "Home", season := str "2024" } (by decide)
  exact ⟨h.2.1, h.2.2.1⟩

/-! Warning characterization for assign_player_to_slot. -/

theorem status_value_ne_active (st : PlayerStatus) :
    (st.value ≠ str "Active") ↔ st ≠ PlayerStatus.ACTIVE := by
  cases st <;> decide

/-- C4 counterexample: with Alice already in slots 5 and 6, re-assigning her
to slot 5 succeeds with no warnings at all, although another slot of the same
template with a different id (slot 6) holds her — so the claimed duplicate
condition ("another slot with a different slot_id already holds this player")
does not produce a warning here. -/
theorem C4_duplicate_warning_counterexample :
    (assignPlayerToSlot twoAssigned 5 (some 2)).2 =
      Except.ok { success := true, slot_id := 5, player_id := some 2, warnings := [] } ∧
    (twoAssigned.cur.slots.filter
      (fun sl => sl.template_id == 4 && sl.player_id == some 2 && sl.id != 5)).length = 1 := by
  decide

/-- C4 amended: a successful same-team assignment persists the slot update,
commits, and returns success together with all applicable warnings, each
computed from an independent condition: a duplicate warning exactly when the
first slot of the template in storage order holding the player is a different
slot — naming that slot's label; a status warning exactly when the player's
status is not Active; a position warning exactly when the player's position
does not match the slot type under the fixed map F-FWD, D-DEF, G-G.
Assigning the same player to a second slot therefore succeeds for both and
warns on the second; only when the target slot itself is the first holder of
the player is the duplicate warning suppressed. -/
theorem C4_assignment_warnings (s : Session) (slot_id pid : Nat)
    (slot : LineupSlot) (template : LineupTemplate) (player : Player)
    (hs : s.cur.getSlot slot_id = some slot)
    (ht : s.cur.getTemplate slot.template_id = some template)
    (hp : s.cur.getPlayer pid = some player)
    (hteam : player.team_id = template.team_id) :
    assignPlayerToSlot s slot_id (some pid) =
      (Session.commit { s with cur := s.cur.setSlotPlayer slot_id (some pid) },
       Except.ok { success := true, slot_id := slot_id, player_id := some pid,
                   warnings := assignWarnings s.cur slot_id slot template pid player }) ∧
    ((∃ w ∈ assignWarnings s.cur slot_id slot template pid player,
        w.type = str "duplicate") ↔
      (∃ ex, findPlayerInLineup s.cur template.id pid = some ex ∧ ex.id ≠ slot_id)) ∧
    (∀ ex, findPlayerInLineup s.cur template.id pid = some ex → ex.id ≠ slot_id →
      ({ type := str "duplicate",
         message := str "Player " ++ player.name ++ str " is already assigned to " ++
           ex.slot_label } : Warning) ∈
        assignWarnings s.cur slot_id slot template pid player) ∧
    ((∃ w ∈ assignWarnings s.cur slot_id slot template pid player,
        w.type = str "status") ↔ player.status ≠ PlayerStatus.ACTIVE) ∧
    ((∃ w ∈ assignWarnings s.cur slot_id slot template pid player,
        w.type = str "position") ↔
      isPositionCompatible player.position.value slot.slot_type.value = false) := by
  have hne1 : ¬(str "status" = str "duplicate") := by decide
  have hne2 : ¬(str "position" = str "duplicate") := by decide
  have hne3 : ¬(str "duplicate" = str "status") := by decide
  have hne4 : ¬(str "position" = str "status") := by decide
  have hne5 : ¬(str "duplicate" = str "position") := by decide
  have hne6 : ¬(str "status" = str "position") := by decide
  refine ⟨?_, ?_, ?_, ?_, ?_⟩
  · simp only [assignPlayerToSlot, hs, ht, hp]
    have hcond : ¬(player.team_id ≠ template.team_id) := by simpa using hteam
    rw [if_neg hcond]
  · unfold assignWarnings
    rcases hf : findPlayerInLineup s.cur template.id pid with - | ex
    · constructor
      · intro hw
        exfalso
        rcases hw with ⟨w, hw, hty⟩
        rcases List.mem_append.mp hw with h1 | h1
        · rcases List.mem_append.mp h1 with h2 | h2
          · simp at h2
          · by_cases hst : player.status.value ≠ str "Active" <;> simp [hst] at h2
            rw [h2] at hty
            exact hne1 hty
        · by_cases hpc : isPositionCompatible player.position.value
              slot.slot_type.value = false <;> simp [hpc] at h1
          rw [h1] at hty
          exact hne2 hty
      · intro hw
        rcases hw with ⟨ex, hex, -⟩
        simp at hex
    · by_cases hid : ex.id ≠ slot_id
      · constructor
        · intro _
          exact ⟨ex, rfl, hid⟩
        · intro _
          refine ⟨{ type := str "duplicate",
                    message := str "Player " ++ player.name ++
                      str " is already assigned to " ++ ex.slot_label }, ?_, rfl⟩
          apply List.mem_append.mpr
          apply Or.inl
          apply List.mem_append.mpr
          apply Or.inl
          simp [hid]
      · constructor
        · intro hw
          exfalso
          rcases hw with ⟨w, hw, hty⟩
          rcases List.mem_append.mp hw with h1 | h1
          · rcases List.mem_append.mp h1 with h2 | h2
            · simp [hid] at h2
            · by_cases hst : player.status.value ≠ str "Active" <;> simp [hst] at h2
              rw [h2] at hty
              exact hne1 hty
          · by_cases hpc : isPositionCompatible player.position.value
                slot.slot_type.value = false <;> simp [hpc] at h1
            rw [h1] at hty
            exact hne2 hty
        · intro hw
          rcases hw with ⟨ex2, hex2, hne⟩
          have hee : ex = ex2 := by injection hex2
          subst hee
          exact absurd hne hid
  · intro ex hex hne
    unfold assignWarnings
    simp only [hex]
    apply List.mem_append.mpr
    apply Or.inl
    apply List.mem_append.mpr
    apply Or.inl
    simp [hne]
  · unfold assignWarnings
    rw [← status_value_ne_active]
    constructor
    · intro hw
      rcases hw with ⟨w, hw, hty⟩
      by_cases hst : player.status.value ≠ str "Active"
      · exact hst
      · exfalso
        rcases List.mem_append.mp hw with h1 | h1
        · rcases List.mem_append.mp h1 with h2 | h2
          · rcases hf : findPlayerInLineup s.cur template.id pid with - | ex <;>
              rw [hf] at h2
            · simp at h2
            · by_cases hid : ex.id ≠ slot_id <;> simp [hid] at h2 <;> simp_all
          · simp [hst] at h2
        · by_cases hpc : isPositionCompatible player.position.value
              slot.slot_type.value = false <;> simp [hpc] at h1 <;> simp_all
    · intro hst
      refine ⟨{ type := str "status",
                message := str "Player " ++ player.name ++ str " has status \x27" ++
                  player.status.value ++ str "\x27 (not Active)" }, ?_, rfl⟩
      apply List.mem_append.mpr
      apply Or.inl
      apply List.mem_append.mpr
      apply Or.inr
      simp [hst]
  · unfold assignWarnings
    constructor
    · intro hw
      rcases hw with ⟨w, hw, hty⟩
      by_cases hpc : isPositionCompatible player.position.value
          slot.slot_type.value = false
      · exact hpc
      · exfalso
        rcases List.mem_append.mp hw with h1 | h1
        · rcases List.mem_append.mp h1 with h2 | h2
          · rcases hf : findPlayerInLineup s.cur template.id pid with - | ex <;>
              rw [hf] at h2
            · simp at h2
            · by_cases hid : ex.id ≠ slot_id <;> simp [hid] at h2 <;> simp_all
          · by_cases hst : player.status.value ≠ str "Active" <;>
              simp [hst] at h2 <;> simp_all
        · simp [hpc] at h1
    · intro hpc
      refine ⟨{ type := str "position",
                message := str "Player " ++ player.name ++ str " is a " ++
                  player.position.value ++ str " but slot is for " ++
                  slot.slot_type.value }, ?_, rfl⟩
      apply List.mem_append.mpr
      apply Or.inr
      simp [hpc]

theorem C4_assignment_warnings_witness :
    (assignPlayerToSlot oneAssigned 6 (some 2)).2 =
      Except.ok { success := true, slot_id := 6, player_id := some 2,
                  warnings := [{ type := str "duplicate",
                                 message := str "Player Alice is already assigned to FWD1 LW" }] } := by
  have h := C4_assignment_warnings oneAssigned 6 2
    { id := 6, template_id := 4, slot_type := SlotType.FWD,
      slot_label := str "FWD1 C", order_index := 11, player_id := none }
    { id := 4, team_id := 1, name := str "Game1" }
    alice (by decide) (by decide) (by decide) (by decide)
  rw [h.1]
  decide

/-! Bulk assignment batch semantics. -/

theorem bulkStep_acc (σ : Session) (us : List Nat) (ws : List Warning) (item : BulkItem) :
    bulkStep (σ, us, ws) item =
      ((bulkStep (σ, [], []) item).1,
       us ++ (bulkStep (σ, [], []) item).2.1,
       ws ++ (bulkStep (σ, [], []) item).2.2) := by
  cases hi : item.slot_id with
  | none => simp [bulkStep, hi]
  | some sid =>
    simp only [bulkStep, hi]
    rcases hres : assignPlayerToSlot σ sid item.player_id with ⟨s2, r2⟩
    cases r2 <;> simp

theorem bulkFold_acc (items : List BulkItem) :
    ∀ (σ : Session) (us : List Nat) (ws : List Warning),
      items.foldl bulkStep (σ, us, ws) =
        ((items.foldl bulkStep (σ, [], [])).1,
         us ++ (items.foldl bulkStep (σ, [], [])).2.1,
         ws ++ (items.foldl bulkStep (σ, [], [])).2.2) := by
  induction items with
  | nil =>
    intro σ us ws
    simp
  | cons item rest ih =>
    intro σ us ws
    rw [List.foldl_cons, List.foldl_cons, bulkStep_acc σ us ws item]
    rcases hstep : bulkStep (σ, [], []) item with ⟨σ1, us1, ws1⟩
    rw [ih σ1 (us ++ us1) (ws ++ ws1), ih σ1 us1 ws1]
    simp [List.append_assoc]

theorem bulkFold_commits (items : List BulkItem) : ∀ σ : Session,
    (items.foldl bulkStep (σ, [], [])).1.commits =
      σ.commits + (items.foldl bulkStep (σ, [], [])).2.1.length := by
  induction items with
  | nil =>
    intro σ
    simp
  | cons item rest ih =>
    intro σ
    rw [List.foldl_cons]
    cases hi : item.slot_id with
    | none =>
      simp only [bulkStep, hi]
      exact ih σ
    | some sid =>
      simp only [bulkStep, hi]
      rcases hres : assignPlayerToSlot σ sid item.player_id with ⟨s2, r2⟩
      cases r2 with
      | ok r =>
        have hc : s2.commits = σ.commits + 1 := by
          rw [(assign_ok_spec σ sid item.player_id s2 r hres).1]
          rfl
        simp only [List.nil_append]
        rw [bulkFold_acc rest s2 [sid] r.warnings]
        simp only []
        rw [ih s2, hc]
        simp
        omega
      | error e =>
        have hse := assign_error_spec σ sid item.player_id s2 e hres
        subst hse
        simp only [List.nil_append]
        rw [bulkFold_acc rest s2 []]
        simp only [List.nil_append]
        exact ih s2

/-- C2 counterexample: a bulk call whose single item is assigned successfully
performs two commit events (one inside assign_player_to_slot for the item, one
at the end of the batch), so the changes are not committed together once at
the end. -/
theorem C2_single_commit_counterexample :
    (bulkUpdateSlots sampleLineup 4
        [{ slot_id := some 5, player_id := some 2 }]).1.commits =
      sampleLineup.commits + 2 ∧
    ¬((bulkUpdateSlots sampleLineup 4
        [{ slot_id := some 5, player_id := some 2 }]).1.commits =
      sampleLineup.commits + 1) := by
  decide

/-- C2 amended: bulkAssign fails fast with the template-not-found ServiceError
and no state change when the template is missing.  Otherwise each item failure
is caught and converted into an error warning entry while the batch continues:
for any decomposition pre, failing item, suf — where the item's assignment
raises at the state reached after pre — the final session and updated-slot
list are exactly those of processing pre followed by suf, with the failure's
warning entry inserted in order; prior successful assignments remain applied.
Each successful assignment is committed immediately inside
assign_player_to_slot and exactly one further commit closes the batch, so a
batch with k successful items performs k+1 commits rather than a single
batch-final commit; there is no rollback on failure and the final state is
committed. -/
theorem C2_bulk_best_effort (s : Session) (tid : Nat) (items : List BulkItem)
    (tmpl : LineupTemplate) (ht : s.cur.getTemplate tid = some tmpl)
    (pre suf : List BulkItem) (item : BulkItem) (sid : Nat) (e : Str)
    (hitems : items = pre ++ item :: suf)
    (hsid : item.slot_id = some sid)
    (herr : (assignPlayerToSlot (pre.foldl bulkStep (s, [], [])).1 sid item.player_id).2 =
      Except.error e) :
    (∀ s0 : Session, s0.cur.getTemplate tid = none → ∀ items0 : List BulkItem,
      bulkUpdateSlots s0 tid items0 =
        (s0, Except.error (str "Template with ID " ++ natDigits tid ++ str " not found"))) ∧
    bulkUpdateSlots s tid items =
      (Session.commit
        (suf.foldl bulkStep ((pre.foldl bulkStep (s, [], [])).1, [], [])).1,
       Except.ok
         { success := true,
           updated_slots := (pre.foldl bulkStep (s, [], [])).2.1 ++
             (suf.foldl bulkStep ((pre.foldl bulkStep (s, [], [])).1, [], [])).2.1,
           warnings := (pre.foldl bulkStep (s, [], [])).2.2 ++
             [bulkErrorWarning sid e] ++
             (suf.foldl bulkStep ((pre.foldl bulkStep (s, [], [])).1, [], [])).2.2 }) ∧
    (bulkUpdateSlots s tid items).1 = (bulkUpdateSlots s tid (pre ++ suf)).1 ∧
    (∀ items0 : List BulkItem, ∃ res : BulkResult,
      bulkUpdateSlots s tid items0 = ((bulkUpdateSlots s tid items0).1, Except.ok res) ∧
      res.success = true ∧
      (bulkUpdateSlots s tid items0).1.commits =
        s.commits + res.updated_slots.length + 1 ∧
      (bulkUpdateSlots s tid items0).1.committed =
        (bulkUpdateSlots s tid items0).1.cur) := by
  rcases hg : pre.foldl bulkStep (s, [], []) with ⟨σg, usg, wsg⟩
  have hstep : bulkStep (σg, usg, wsg) item = (σg, usg, wsg ++ [bulkErrorWarning sid e]) := by
    simp only [bulkStep, hsid]
    rcases hres : assignPlayerToSlot σg sid item.player_id with ⟨s2, r2⟩
    have herr2 : r2 = Except.error e := by
      rw [hg] at herr
      simp only [hres] at herr
      exact herr
    subst herr2
    have hse := assign_error_spec σg sid item.player_id s2 e hres
    subst hse
    rfl
  have hfold : items.foldl bulkStep (s, [], []) =
      ((suf.foldl bulkStep (σg, [], [])).1,
       usg ++ (suf.foldl bulkStep (σg, [], [])).2.1,
       (wsg ++ [bulkErrorWarning sid e]) ++ (suf.foldl bulkStep (σg, [], [])).2.2) := by
    rw [hitems, List.foldl_append, hg, List.foldl_cons, hstep,
      bulkFold_acc suf σg usg (wsg ++ [bulkErrorWarning sid e])]
  have hfold2 : (pre ++ suf).foldl bulkStep (s, [], []) =
      ((suf.foldl bulkStep (σg, [], [])).1,
       usg ++ (suf.foldl bulkStep (σg, [], [])).2.1,
       wsg ++ (suf.foldl bulkStep (σg, [], [])).2.2) := by
    rw [List.foldl_append, hg, bulkFold_acc suf σg usg wsg]
  refine ⟨?_, ?_, ?_, ?_⟩
  · intro s0 h0 items0
    simp [bulkUpdateSlots, h0]
  · simp only [bulkUpdateSlots, ht, hfold, hg]
  · simp only [bulkUpdateSlots, ht, hfold, hfold2]
  · intro items0
    refine ⟨{ success := true,
              updated_slots := (items0.foldl bulkStep (s, [], [])).2.1,
              warnings := (items0.foldl bulkStep (s, [], [])).2.2 }, ?_, rfl, ?_, ?_⟩
    · simp only [bulkUpdateSlots, ht]
    · simp only [bulkUpdateSlots, ht, Session.commit]
      rw [bulkFold_commits items0 s]
    · simp only [bulkUpdateSlots, ht, Session.commit]

theorem C2_bulk_best_effort_witness :
    (bulkUpdateSlots sampleLineup 4
        [{ slot_id := some 5, player_id := some 2 },
         { slot_id := some 999, player_id := none },
         { slot_id := some 6, player_id := some 2 }]).1 =
      (bulkUpdateSlots sampleLineup 4
        [{ slot_id := some 5, player_id := some 2 },
         { slot_id := some 6, player_id := some 2 }]).1 := by
  have h := C2_bulk_best_effort sampleLineup 4
    [{ slot_id := some 5, player_id := some 2 },
     { slot_id := some 999, player_id := none },
     { slot_id := some 6, player_id := some 2 }]
    { id := 4, team_id := 1, name := str "Game1" } (by decide)
    [{ slot_id := some 5, player_id := some 2 }]
    [{ slot_id := some 6, player_id := some 2 }]
    { slot_id := some 999, player_id := none } 999 (str "Slot with ID 999 not found")
    rfl rfl (by decide)
  exact h.2.2.1

/-! CSV import loop decomposition. -/

theorem importStep_error (fns : List Str) (tid : Nat) (σ : Session) (acc : ImportAcc)
    (rn : Nat) (row : List Str) (e : Str)
    (hf : rowParseValidate fns row tid = Except.error e) :
    importStep fns tid (σ, acc) rn row =
      (σ, { acc with
            skipped := acc.skipped + 1
            errors := acc.errors ++
              [{ row := rn, field := str "general", reason := e,
                 value := rowStr fns row }] }) := by
  unfold importStep
  simp only [hf]

theorem importStep_dup (fns : List Str) (tid : Nat) (σ : Session) (acc : ImportAcc)
    (rn : Nat) (row : List Str) (pd : PlayerData) (q : Player)
    (hok : rowParseValidate fns row tid = Except.ok pd)
    (hdup : findDuplicatePlayer σ.cur pd = some q) :
    importStep fns tid (σ, acc) rn row =
      (σ, { acc with
            skipped := acc.skipped + 1
            errors := acc.errors ++
              [{ row := rn, field := str "name",
                 reason := str "Duplicate player: " ++ pd.name, value := pd.name }] }) := by
  unfold importStep
  simp only [hok, hdup]

theorem importStep_acc (fns : List Str) (tid : Nat) (σ : Session) (acc : ImportAcc)
    (rn : Nat) (row : List Str) :
    importStep fns tid (σ, acc) rn row =
      ((importStep fns tid (σ, {}) rn row).1,
       { imported := acc.imported + (importStep fns tid (σ, {}) rn row).2.imported,
         skipped := acc.skipped + (importStep fns tid (σ, {}) rn row).2.skipped,
         errors := acc.errors ++ (importStep fns tid (σ, {}) rn row).2.errors }) := by
  unfold importStep
  cases hrv : rowParseValidate fns row tid with
  | error e => simp
  | ok pd =>
    cases hd : findDuplicatePlayer σ.cur pd with
    | some q => simp [hd]
    | none =>
      cases hp : positionOfString? pd.position with
      | some pos => simp [hd, hp]
      | none => simp [hd, hp]

theorem importRowsAux_acc (fns : List Str) (tid : Nat) (rows : List (List Str)) :
    ∀ (σ : Session) (acc : ImportAcc) (rn : Nat),
      importRowsAux fns tid σ acc rn rows =
        ((importRowsAux fns tid σ {} rn rows).1,
         { imported := acc.imported + (importRowsAux fns tid σ {} rn rows).2.imported,
           skipped := acc.skipped + (importRowsAux fns tid σ {} rn rows).2.skipped,
           errors := acc.errors ++ (importRowsAux fns tid σ {} rn rows).2.errors }) := by
  induction rows with
  | nil =>
    intro σ acc rn
    simp [importRowsAux]
  | cons row rest ih =>
    intro σ acc rn
    simp only [importRowsAux]
    rw [importStep_acc fns tid σ acc rn row]
    rcases hstep : importStep fns tid (σ, {}) rn row with ⟨σ1, d1⟩
    simp only []
    rw [ih σ1 _ (rn + 1), ih σ1 d1 (rn + 1)]
    simp [Nat.add_assoc, List.append_assoc]

theorem importRowsAux_append (fns : List Str) (tid : Nat) (xs ys : List (List Str)) :
    ∀ (σ : Session) (acc : ImportAcc) (rn : Nat),
      importRowsAux fns tid σ acc rn (xs ++ ys) =
        importRowsAux fns tid (importRowsAux fns tid σ acc rn xs).1
          (importRowsAux fns tid σ acc rn xs).2 (rn + xs.length) ys := by
  induction xs with
  | nil =>
    intro σ acc rn
    simp [importRowsAux]
  | cons x rest ih =>
    intro σ acc rn
    simp only [List.cons_append, importRowsAux, List.append_eq]
    rw [ih]
    have harith : rn + 1 + rest.length = rn + (rest.length + 1) := by omega
    rw [harith]
    simp [List.length_cons]

theorem importStep_frame (fns : List Str) (tid : Nat) (σ : Session) (acc : ImportAcc)
    (rn : Nat) (row : List Str) :
    (importStep fns tid (σ, acc) rn row).1.committed = σ.committed ∧
    (importStep fns tid (σ, acc) rn row).1.commits = σ.commits := by
  unfold importStep
  cases hrv : rowParseValidate fns row tid with
  | error e => exact ⟨rfl, rfl⟩
  | ok pd =>
    cases hd : findDuplicatePlayer σ.cur pd with
    | some q => simp [hd]
    | none =>
      cases hp : positionOfString? pd.position with
      | some pos => simp [hd, hp]
      | none => simp [hd, hp]

theorem importRowsAux_frame (fns : List Str) (tid : Nat) (rows : List (List Str)) :
    ∀ (σ : Session) (acc : ImportAcc) (rn : Nat),
      (importRowsAux fns tid σ acc rn rows).1.committed = σ.committed ∧
      (importRowsAux fns tid σ acc rn rows).1.commits = σ.commits := by
  induction rows with
  | nil =>
    intro σ acc rn
    exact ⟨rfl, rfl⟩
  | cons row rest ih =>
    intro σ acc rn
    simp only [importRowsAux]
    rcases hstep : importStep fns tid (σ, acc) rn row with ⟨σ1, acc1⟩
    have hframe := importStep_frame fns tid σ acc rn row
    rw [hstep] at hframe
    simp only []
    have := ih σ1 acc1 (rn + 1)
    exact ⟨this.1.trans hframe.1, this.2.trans hframe.2⟩

/-- C5: with a valid header, a parse or validation failure in one data row is
caught and recorded as an error entry with field "general", the raised
message, the stringified raw row, and the row number counted from 2 (the
header is row 1); the failing row leaves the session untouched and processing
continues with the remaining rows exactly as if they directly followed the
prefix, with one final commit when anything was imported; in particular a
four-row batch whose third data row has an invalid position yields
imported = 3, skipped = 1 and the error listed at row = 4. -/
theorem C5_row_failure_continues (fns : List Str) (tid : Nat) (s : Session)
    (pre suf : List (List Str)) (row : List Str) (e : Str)
    (hfns : fns ≠ []) (hmiss : missingHeaders fns = [])
    (hfail : rowParseValidate fns row tid = Except.error e) :
    (importPlayers s tid fns (pre ++ row :: suf) =
      (let g := importRowsAux fns tid s {} 2 pre
       let d := importRowsAux fns tid g.1 {} (2 + pre.length + 1) suf
       ((if g.2.imported + d.2.imported > 0 then d.1.commit else d.1),
        Except.ok
          { imported := g.2.imported + d.2.imported,
            skipped := g.2.skipped + 1 + d.2.skipped,
            errors := (g.2.errors ++
              [{ row := 2 + pre.length, field := str "general", reason := e,
                 value := rowStr fns row }]) ++ d.2.errors }))) ∧
    (importPlayers (Session.fromDB importDB) 9 EXPECTED_HEADERS
        [csvRow "Ann" "F", csvRow "Ben" "D", csvRow "Cal" "X", csvRow "Dee" "G"]).2 =
      Except.ok
        { imported := 3, skipped := 1,
          errors := [{ row := 4, field := str "general",
                       reason := str "Invalid position: X",
                       value := rowStr EXPECTED_HEADERS (csvRow "Cal" "X") }] } ∧
    ((importPlayers (Session.fromDB importDB) 9 EXPECTED_HEADERS
        [csvRow "Ann" "F", csvRow "Ben" "D", csvRow "Cal" "X", csvRow "Dee" "G"]).1.committed.players.map
      Player.name) = [str "Ann", str "Ben", str "Dee"] := by
  have hfne : fns.isEmpty = false := by
    cases fns
    · exact absurd rfl hfns
    · rfl
  refine ⟨?_, by decide, by decide⟩
  simp only [importPlayers, hfne, hmiss, Bool.not_false, List.isEmpty_nil, if_false,
    Bool.false_eq_true, if_true]
  rw [importRowsAux_append fns tid pre (row :: suf) s {} 2]
  simp only [importRowsAux]
  rw [importStep_error fns tid (importRowsAux fns tid s {} 2 pre).1
    (importRowsAux fns tid s {} 2 pre).2 (2 + pre.length) row e hfail]
  simp only []
  rw [importRowsAux_acc fns tid suf (importRowsAux fns tid s {} 2 pre).1 _
    (2 + pre.length + 1)]
  simp [List.append_assoc]

/-- C6: with a valid header, a data row whose (team_id, name) pair matches a
player visible in the session state reached after the preceding rows — which
includes players staged by earlier rows of the same batch, since queries see
the autoflushed session — is recorded as skipped with field "name" and reason
"Duplicate player: {name}", is not inserted, and the remaining rows are
processed from an unchanged session; in particular a batch whose second row
repeats the first row's name imports the first and third rows and skips the
second with the duplicate reason at row = 3. -/
theorem C6_duplicate_row_skipped (fns : List Str) (tid : Nat) (s : Session)
    (pre suf : List (List Str)) (row : List Str) (pd : PlayerData) (q : Player)
    (hfns : fns ≠ []) (hmiss : missingHeaders fns = [])
    (hok : rowParseValidate fns row tid = Except.ok pd)
    (hdup : findDuplicatePlayer (importRowsAux fns tid s {} 2 pre).1.cur pd = some q) :
    (importPlayers s tid fns (pre ++ row :: suf) =
      (let g := importRowsAux fns tid s {} 2 pre
       let d := importRowsAux fns tid g.1 {} (2 + pre.length + 1) suf
       ((if g.2.imported + d.2.imported > 0 then d.1.commit else d.1),
        Except.ok
          { imported := g.2.imported + d.2.imported,
            skipped := g.2.skipped + 1 + d.2.skipped,
            errors := (g.2.errors ++
              [{ row := 2 + pre.length, field := str "name",
                 reason := str "Duplicate player: " ++ pd.name,
                 value := pd.name }]) ++ d.2.errors }))) ∧
    (importPlayers (Session.fromDB importDB) 9 EXPECTED_HEADERS
        [csvRow "Ann" "F", csvRow "Ann" "D", csvRow "Ben" "G"]).2 =
      Except.ok
        { imported := 2, skipped := 1,
          errors := [{ row := 3, field := str "name",
                       reason := str "Duplicate player: Ann",
                       value := str "Ann" }] } ∧
    ((importPlayers (Session.fromDB importDB) 9 EXPECTED_HEADERS
        [csvRow "Ann" "F", csvRow "Ann" "D", csvRow "Ben" "G"]).1.committed.players.map
      Player.name) = [str "Ann", str "Ben"] := by
  have hfne : fns.isEmpty = false := by
    cases fns
    · exact absurd rfl hfns
    · rfl
  refine ⟨?_, by decide, by decide⟩
  simp only [importPlayers, hfne, hmiss, Bool.not_false, List.isEmpty_nil, if_false,
    Bool.false_eq_true, if_true]
  rw [importRowsAux_append fns tid pre (row :: suf) s {} 2]
  simp only [importRowsAux]
  rw [importStep_dup fns tid (importRowsAux fns tid s {} 2 pre).1
    (importRowsAux fns tid s {} 2 pre).2 (2 + pre.length) row pd q hok hdup]
  simp only []
  rw [importRowsAux_acc fns tid suf (importRowsAux fns tid s {} 2 pre).1 _
    (2 + pre.length + 1)]
  simp [List.append_assoc]

/-- C7: a header that does not include every required column makes the
whole import fail as a rethrown ServiceError with a rollback — nothing is committed
and no commit event happens; with a valid header the row loop itself never
commits, and the batch is committed exactly once at the end precisely when at
least one row succeeded, persisting the staged players; with no successful
row, nothing is committed. -/
theorem C7_header_gate_and_single_commit (s : Session) (tid : Nat) (fns : List Str)
    (rows : List (List Str)) :
    ((∃ h ∈ EXPECTED_HEADERS, fns.contains h = false) →
      (∃ msg, importPlayers s tid fns rows = (s.rollback, Except.error msg)) ∧
      (importPlayers s tid fns rows).1.committed = s.committed ∧
      (importPlayers s tid fns rows).1.commits = s.commits) ∧
    (fns ≠ [] → missingHeaders fns = [] →
      ∃ res : CSVImportResult,
        importPlayers s tid fns rows =
          ((if res.imported > 0 then (importRowsAux fns tid s {} 2 rows).1.commit
            else (importRowsAux fns tid s {} 2 rows).1), Except.ok res) ∧
        (importPlayers s tid fns rows).1.commits =
          s.commits + (if res.imported > 0 then 1 else 0) ∧
        (res.imported > 0 →
          (importPlayers s tid fns rows).1.committed =
            (importPlayers s tid fns rows).1.cur) ∧
        (res.imported = 0 →
          (importPlayers s tid fns rows).1.committed = s.committed)) := by
  constructor
  · intro hmissing
    cases hf : fns with
    | nil =>
      subst hf
      exact ⟨⟨str "CSV import failed: CSV file is empty or invalid", rfl⟩, rfl, rfl⟩
    | cons f rest =>
      subst hf
      obtain ⟨h, hmem, hnc⟩ := hmissing
      have hmh : (missingHeaders (f :: rest)).isEmpty = false := by
        have hmem2 : h ∈ missingHeaders (f :: rest) := by
          unfold missingHeaders
          apply List.mem_filter.mpr
          refine ⟨hmem, ?_⟩
          rw [hnc]
          rfl
        cases hx : missingHeaders (f :: rest) with
        | nil =>
          rw [hx] at hmem2
          simp at hmem2
        | cons a l => rfl
      have hfne : (f :: rest).isEmpty = false := rfl
      refine ⟨⟨str "CSV import failed: Missing required headers: " ++
        joinSep (str ", ") (missingHeaders (f :: rest)), ?_⟩, ?_, ?_⟩ <;>
        simp only [importPlayers, hfne, hmh, Bool.not_false, if_true, Bool.false_eq_true,
          if_false] <;> rfl
  · intro hfns hmiss
    have hfne : fns.isEmpty = false := by
      cases fns
      · exact absurd rfl hfns
      · rfl
    have hframe := importRowsAux_frame fns tid rows s {} 2
    have heval : importPlayers s tid fns rows =
        ((if (importRowsAux fns tid s {} 2 rows).2.imported > 0
            then (importRowsAux fns tid s {} 2 rows).1.commit
            else (importRowsAux fns tid s {} 2 rows).1),
         Except.ok
           { imported := (importRowsAux fns tid s {} 2 rows).2.imported,
             skipped := (importRowsAux fns tid s {} 2 rows).2.skipped,
             errors := (importRowsAux fns tid s {} 2 rows).2.errors }) := by
      simp only [importPlayers, hfne, hmiss, List.isEmpty_nil, Bool.not_true,
        Bool.false_eq_true, if_false]
    refine ⟨{ imported := (importRowsAux fns tid s {} 2 rows).2.imported,
              skipped := (importRowsAux fns tid s {} 2 rows).2.skipped,
              errors := (importRowsAux fns tid s {} 2 rows).2.errors }, heval, ?_, ?_, ?_⟩
    · rw [heval]
      by_cases himp : (importRowsAux fns tid s {} 2 rows).2.imported > 0
      · simp [himp, Session.commit, hframe.2]
      · simp [himp, hframe.2]
    · intro himp
      rw [heval]
      simp [himp, Session.commit]
    · intro himp0
      rw [heval]
      have himp1 : (importRowsAux fns tid s {} 2 rows).2.imported = 0 := himp0
      have hnot : ¬((importRowsAux fns tid s {} 2 rows).2.imported > 0) := by omega
      simp [hnot, hframe.1]

theorem C5_row_failure_continues_witness :
    (importPlayers (Session.fromDB importDB) 9 EXPECTED_HEADERS
        ([csvRow "Ann" "F", csvRow "Ben" "D"] ++ csvRow "Cal" "X" :: [csvRow "Dee" "G"])).2 =
      Except.ok
        { imported := 3, skipped := 1,
          errors := [{ row := 4, field := str "general",
                       reason := str "Invalid position: X",
                       value := rowStr EXPECTED_HEADERS (csvRow "Cal" "X") }] } := by
  have h := C5_row_failure_continues EXPECTED_HEADERS 9 (Session.fromDB importDB)
    [csvRow "Ann" "F", csvRow "Ben" "D"] [csvRow "Dee" "G"] (csvRow "Cal" "X")
    (str "Invalid position: X") (by decide) (by decide) (by decide)
  rw [h.1]
  decide

theorem C6_duplicate_row_skipped_witness :
    (importPlayers (Session.fromDB importDB) 9 EXPECTED_HEADERS
        ([csvRow "Ann" "F"] ++ csvRow "Ann" "D" :: [csvRow "Ben" "G"])).2 =
      Except.ok
        { imported := 2, skipped := 1,
          errors := [{ row := 3, field := str "name",
                       reason := str "Duplicate player: Ann",
                       value := str "Ann" }] } := by
  have h := C6_duplicate_row_skipped EXPECTED_HEADERS 9 (Session.fromDB importDB)
    [csvRow "Ann" "F"] [csvRow "Ben" "G"] (csvRow "Ann" "D")
    { team_id := 9, name := str "Ann", position := str "D" }
    { id := 10, team_id := 9, name := str "Ann", position := Position.F }
    (by decide) (by decide) (by decide) (by decide)
  rw [h.1]
  decide

theorem C7_header_gate_and_single_commit_witness :
    (importPlayers (Session.fromDB importDB) 9 [str "name", str "position"]
        [csvRow "Abe" "F"]).1.commits = 0 ∧
    (importPlayers (Session.fromDB importDB) 9 [str "name", str "position"]
        [csvRow "Abe" "F"]).1.committed = importDB ∧
    (importPlayers (Session.fromDB importDB) 9 EXPECTED_HEADERS
        [csvRow "Abe" "F"]).1.commits = 1 := by
  have h1 := (C7_header_gate_and_single_commit (Session.fromDB importDB) 9
      [str "name", str "position"] [csvRow "Abe" "F"]).1
    ⟨str "jersey", by decide, by decide⟩
  have h2 := (C7_header_gate_and_single_commit (Session.fromDB importDB) 9
      EXPECTED_HEADERS [csvRow "Abe" "F"]).2 (by decide) (by decide)
  obtain ⟨res, heq, hcommits, -, -⟩ := h2
  have hres : res = { imported := 1, skipped := 0, errors := [] } := by
    have hval : (importPlayers (Session.fromDB importDB) 9 EXPECTED_HEADERS
        [csvRow "Abe" "F"]).2 =
        Except.ok ({ imported := 1, skipped := 0, errors := [] } : CSVImportResult) := by
      decide
    have hok : (Except.ok res : Except Str CSVImportResult) =
        Except.ok ({ imported := 1, skipped := 0, errors := [] } : CSVImportResult) := by
      rw [← hval, heq]
    injection hok
  refine ⟨h1.2.2, h1.2.1, ?_⟩
  rw [hcommits, hres]
  decide

/-! Round trip of export followed by import. -/

theorem natDigits_no_ws (n : Nat) : ∀ c ∈ natDigits n, c.isWhitespace = false :=
  fun c hc => isDigit_not_whitespace c (natDigits_all_digit n c hc)

theorem pyStrip_natDigits (n : Nat) : pyStrip (natDigits n) = natDigits n :=
  pyStrip_no_ws _ (natDigits_no_ws n)

theorem formatDate_no_ws (d : PDate) : ∀ c ∈ formatDate d, c.isWhitespace = false := by
  intro c hc
  unfold formatDate at hc
  rcases List.mem_append.mp hc with h1 | h1
  · exact isDigit_not_whitespace c (natDigits_all_digit d.year c h1)
  · rcases List.mem_cons.mp h1 with h2 | h2
    · subst h2
      rfl
    · rcases List.mem_append.mp h2 with h3 | h3
      · exact isDigit_not_whitespace c (pad2_all_digit d.month c h3)
      · rcases List.mem_cons.mp h3 with h4 | h4
        · subst h4
          rfl
        · exact isDigit_not_whitespace c (pad2_all_digit d.day c h4)

theorem formatDate_ne_nil (d : PDate) : formatDate d ≠ [] := by
  unfold formatDate
  cases hy : natDigits d.year with
  | nil => exact absurd hy (natDigits_ne_nil d.year)
  | cons a l => simp

theorem bind_ok_str {α β : Type} (a : α) (f : α → Except Str β) :
    (Except.ok a : Except Str α) >>= f = f a := rfl

theorem position_cell_norm (pos : Position) : pyUpper (pyStrip pos.value) = pos.value := by
  cases pos <;> rfl

theorem parseJerseyField_export (jo : Option Int) (pd : PlayerData)
    (hpd : pd.jersey = none)
    (hj : jo.all (fun j => decide (1 ≤ j ∧ j ≤ 99)) = true) :
    parseJerseyField (jerseyCell jo) pd =
      Except.ok { pd with jersey := jo } := by
  cases jo with
  | none =>
    show parseJerseyField [] pd = Except.ok { pd with jersey := none }
    rw [← hpd]
    rfl
  | some j =>
    have hrange : 1 ≤ j ∧ j ≤ 99 := by
      simp only [Option.all] at hj
      exact of_decide_eq_true hj
    have hne0 : (j == 0) = false := by
      have : j ≠ 0 := by omega
      simpa using this
    obtain ⟨n, rfl⟩ := Int.eq_ofNat_of_zero_le (by omega : (0 : Int) ≤ j)
    show parseJerseyField (if ((n : Int) == 0) = true then [] else intDigits (Int.ofNat n)) pd = _
    rw [hne0]
    have hcell : intDigits (Int.ofNat n) = natDigits n := rfl
    simp only [if_false, Bool.false_eq_true, hcell]
    unfold parseJerseyField
    rw [pyStrip_natDigits n]
    rw [if_pos (natDigits_ne_nil n)]
    have : parseInt? (natDigits n) = some ((n : Nat) : Int) := parseInt?_natDigits n
    rw [this]

theorem parseHandField_export (ho : Option Hand) (pd : PlayerData)
    (hpd : pd.hand = none) :
    parseHandField (handCell ho) pd =
      Except.ok { pd with hand := ho } := by
  cases ho with
  | none =>
    show parseHandField [] pd = Except.ok { pd with hand := none }
    rw [← hpd]
    rfl
  | some h => cases h <;> rfl

theorem parseBirthdateField_export (bo : Option PDate) (pd : PlayerData)
    (hpd : pd.birthdate = none)
    (hb : bo.all (fun d => decide (d.valid ∧ 1000 ≤ d.year)) = true) :
    parseBirthdateField (dateCell bo) pd =
      Except.ok { pd with birthdate := bo } := by
  cases bo with
  | none =>
    show parseBirthdateField [] pd = Except.ok { pd with birthdate := none }
    rw [← hpd]
    rfl
  | some d =>
    have hd : d.valid ∧ 1000 ≤ d.year := by
      simp only [Option.all] at hb
      exact of_decide_eq_true hb
    show parseBirthdateField (formatDate d) pd = _
    unfold parseBirthdateField
    rw [pyStrip_no_ws _ (formatDate_no_ws d)]
    rw [if_pos (formatDate_ne_nil d)]
    rw [parseBirthdate?_formatDate d hd.1 hd.2]

theorem parseEmailField_export (eo : Option Str) (pd : PlayerData)
    (hpd : pd.email = none)
    (he : eo.all (fun e => (pyStrip e == e) && !e.isEmpty && emailFormatOk e) = true) :
    parseEmailField (eo.getD []) pd = { pd with email := eo } := by
  cases eo with
  | none =>
    show parseEmailField [] pd = { pd with email := none }
    rw [← hpd]
    rfl
  | some e =>
    simp only [Option.all, Bool.and_eq_true] at he
    obtain ⟨⟨hstrip, hne⟩, -⟩ := he
    have hseq : pyStrip e = e := eq_of_beq hstrip
    have hnn : e ≠ [] := by
      cases e
      · simp at hne
      · simp
    show parseEmailField e pd = _
    unfold parseEmailField
    rw [hseq, if_pos hnn]

theorem parsePhoneField_export (po : Option Str) (pd : PlayerData)
    (hpd : pd.phone = none)
    (hp : po.all (fun ph =>
      (pyStrip ph == ph) && !ph.isEmpty && decide (10 ≤ (cleanPhone ph).length)) = true) :
    parsePhoneField (po.getD []) pd = { pd with phone := po } := by
  cases po with
  | none =>
    show parsePhoneField [] pd = { pd with phone := none }
    rw [← hpd]
    rfl
  | some ph =>
    simp only [Option.all, Bool.and_eq_true] at hp
    obtain ⟨⟨hstrip, hne⟩, -⟩ := hp
    have hseq : pyStrip ph = ph := eq_of_beq hstrip
    have hnn : ph ≠ [] := by
      cases ph
      · simp at hne
      · simp
    show parsePhoneField ph pd = _
    unfold parsePhoneField
    rw [hseq, if_pos hnn]

theorem parseStatusField_export (st : PlayerStatus) (pd : PlayerData) :
    parseStatusField st.value pd = { pd with status := some st } := by
  cases st <;> rfl

theorem export_row_parses (p : Player) (tid : Nat) (hv : validStoredPlayer p = true) :
    parsePlayerRow EXPECTED_HEADERS (playerToRow p) tid = Except.ok (pdOf tid p) := by
  simp only [validStoredPlayer, Bool.and_eq_true] at hv
  obtain ⟨⟨⟨⟨⟨ha, hb0⟩, hj⟩, hbd⟩, hem⟩, hph⟩ := hv
  have hname : pyStrip p.name = p.name := eq_of_beq ha
  have c1 : cellStr EXPECTED_HEADERS (playerToRow p) (str "name") = Except.ok p.name := rfl
  have c2 : cellStr EXPECTED_HEADERS (playerToRow p) (str "position") =
      Except.ok p.position.value := rfl
  have c3 : cellStr EXPECTED_HEADERS (playerToRow p) (str "jersey") =
      Except.ok (jerseyCell p.jersey) := rfl
  have c4 : cellStr EXPECTED_HEADERS (playerToRow p) (str "hand") =
      Except.ok (handCell p.hand) := rfl
  have c5 : cellStr EXPECTED_HEADERS (playerToRow p) (str "birthdate") =
      Except.ok (dateCell p.birthdate) := rfl
  have c6 : cellStr EXPECTED_HEADERS (playerToRow p) (str "email") =
      Except.ok (p.email.getD []) := rfl
  have c7 : cellStr EXPECTED_HEADERS (playerToRow p) (str "phone") =
      Except.ok (p.phone.getD []) := rfl
  have c8 : cellStr EXPECTED_HEADERS (playerToRow p) (str "status") =
      Except.ok p.status.value := rfl
  unfold parsePlayerRow
  rw [c1, c2, c3, c4, c5, c6, c7, c8]
  simp only [bind_ok_str]
  rw [hname, position_cell_norm p.position]
  rw [parseJerseyField_export p.jersey _ rfl hj]
  simp only [bind_ok_str]
  rw [parseHandField_export p.hand _ rfl]
  simp only [bind_ok_str]
  rw [parseBirthdateField_export p.birthdate _ rfl hbd]
  simp only [bind_ok_str]
  rw [parseEmailField_export p.email _ rfl hem]
  rw [parsePhoneField_export p.phone _ rfl hph]
  rw [parseStatusField_export p.status _]
  rfl

theorem export_row_validates (p : Player) (tid : Nat) (hv : validStoredPlayer p = true) :
    validatePlayerData (pdOf tid p) = Except.ok () := by
  simp only [validStoredPlayer, Bool.and_eq_true] at hv
  obtain ⟨⟨⟨⟨⟨ha, hb0⟩, hj⟩, hbd⟩, hem⟩, hph⟩ := hv
  have h1 : checkName (pdOf tid p) = Except.ok () := by
    unfold checkName pdOf
    cases hn : p.name with
    | nil =>
      rw [hn] at hb0
      simp at hb0
    | cons c cs => rfl
  have h2 : checkPosition (pdOf tid p) = Except.ok () := by
    unfold checkPosition pdOf
    simp only []
    rw [if_neg]
    cases p.position <;> decide
  have h3 : checkJersey (pdOf tid p) = Except.ok () := by
    cases hjo : p.jersey with
    | none => simp [checkJersey, pdOf, hjo]
    | some j =>
      rw [hjo] at hj
      simp only [Option.all] at hj
      have hrange := of_decide_eq_true hj
      simp [checkJersey, pdOf, hjo, hrange.1, hrange.2]
  have h4 : checkEmail (pdOf tid p) = Except.ok () := by
    cases heo : p.email with
    | none => simp [checkEmail, pdOf, heo]
    | some e =>
      rw [heo] at hem
      simp only [Option.all, Bool.and_eq_true] at hem
      simp [checkEmail, pdOf, heo, hem.2]
  have h5 : checkPhone (pdOf tid p) = Except.ok () := by
    cases hpo : p.phone with
    | none => simp [checkPhone, pdOf, hpo]
    | some ph =>
      rw [hpo] at hph
      simp only [Option.all, Bool.and_eq_true] at hph
      have hlen := of_decide_eq_true hph.2
      have hnl : ¬((cleanPhone ph).length < 10) := by omega
      simp [checkPhone, pdOf, hpo, hnl]
  unfold validatePlayerData
  rw [h1]
  simp only [bind_ok_str]
  rw [h2]
  simp only [bind_ok_str]
  rw [h3]
  simp only [bind_ok_str]
  rw [h4]
  simp only [bind_ok_str]
  exact h5

theorem rowParseValidate_export (p : Player) (tid : Nat)
    (hv : validStoredPlayer p = true) :
    rowParseValidate EXPECTED_HEADERS (playerToRow p) tid = Except.ok (pdOf tid p) := by
  unfold rowParseValidate
  rw [export_row_parses p tid hv]
  simp only [bind_ok_str]
  rw [export_row_validates p tid hv]
  rfl

theorem buildPlayer_pdOf (p : Player) (id tid : Nat) :
    buildPlayer id (pdOf tid p) p.position = { p with id := id, team_id := tid } := rfl

theorem positionOfString?_value (pos : Position) :
    positionOfString? pos.value = some pos := by
  cases pos <;> rfl

theorem reimportedPlayers_fields (tid : Nat) : ∀ (ps : List Player) (fid : Nat),
    (reimportedPlayers fid tid ps).map playerFields = ps.map playerFields := by
  intro ps
  induction ps with
  | nil => intro fid; rfl
  | cons p rest ih =>
    intro fid
    simp only [reimportedPlayers, List.map_cons, ih]
    rfl

theorem reimportedPlayers_team (tid : Nat) : ∀ (ps : List Player) (fid : Nat)
    (q : Player), q ∈ reimportedPlayers fid tid ps → q.team_id = tid := by
  intro ps
  induction ps with
  | nil =>
    intro fid q hq
    simp [reimportedPlayers] at hq
  | cons p rest ih =>
    intro fid q hq
    rcases List.mem_cons.mp hq with h1 | h1
    · subst h1
      rfl
    · exact ih (fid + 1) q h1

theorem import_export_rows (tid2 : Nat) : ∀ (ps : List Player) (σ : Session) (rn : Nat),
    (∀ p ∈ ps, validStoredPlayer p = true) →
    (ps.map Player.name).Nodup →
    (∀ q ∈ σ.cur.players, q.team_id = tid2 → ∀ p ∈ ps, q.name ≠ p.name) →
    importRowsAux EXPECTED_HEADERS tid2 σ {} rn (ps.map playerToRow) =
      ({ σ with cur := { σ.cur with
          players := σ.cur.players ++ reimportedPlayers σ.cur.nextId tid2 ps,
          nextId := σ.cur.nextId + ps.length } },
       { imported := ps.length, skipped := 0, errors := [] }) := by
  intro ps
  induction ps with
  | nil =>
    intro σ rn _ _ _
    simp [importRowsAux, reimportedPlayers]
  | cons p rest ih =>
    intro σ rn hv hnd hfresh
    simp only [List.map_cons, importRowsAux]
    have hrv : rowParseValidate EXPECTED_HEADERS (playerToRow p) tid2 =
        Except.ok (pdOf tid2 p) :=
      rowParseValidate_export p tid2 (hv p (by simp))
    have hdup : findDuplicatePlayer σ.cur (pdOf tid2 p) = none := by
      unfold findDuplicatePlayer
      rw [List.find?_eq_none]
      intro q hq
      by_cases hteam : q.team_id = tid2
      · have hne := hfresh q hq hteam p (by simp)
        simp [pdOf, hne, hteam]
      · simp [pdOf, hteam]
    have hstep : importStep EXPECTED_HEADERS tid2 (σ, {}) rn (playerToRow p) =
        ({ σ with cur := { σ.cur with
            players := σ.cur.players ++ [{ p with id := σ.cur.nextId, team_id := tid2 }],
            nextId := σ.cur.nextId + 1 } },
         { imported := 1, skipped := 0, errors := [] }) := by
      have hpos2 : positionOfString? (pdOf tid2 p).position = some p.position :=
        positionOfString?_value p.position
      unfold importStep
      simp only [hrv, hdup, hpos2]
      rw [buildPlayer_pdOf]
    rw [hstep]
    simp only []
    rw [importRowsAux_acc EXPECTED_HEADERS tid2 (rest.map playerToRow) _ _ (rn + 1)]
    rw [ih _ (rn + 1) (fun q hq => hv q (by simp [hq])) (by
        simp only [List.map_cons, List.nodup_cons] at hnd
        exact hnd.2) ?hfr]
    case hfr =>
      intro q hq hteam p2 hp2
      simp only [] at hq
      rcases List.mem_append.mp hq with h1 | h1
      · exact hfresh q h1 hteam p2 (by simp [hp2])
      · have hqe : q = { p with id := σ.cur.nextId, team_id := tid2 } := by simpa using h1
        subst hqe
        simp only []
        simp only [List.map_cons, List.nodup_cons] at hnd
        intro hcon
        exact hnd.1 (hcon ▸ List.mem_map_of_mem Player.name hp2)
    simp only [reimportedPlayers]
    rw [List.append_assoc, List.singleton_append]
    have harith : σ.cur.nextId + 1 + rest.length = σ.cur.nextId + (rest.length + 1) := by
      omega
    rw [harith]
    simp [List.length_cons, Nat.add_comm]

/-- C8 counterexample: a team whose two players share the name Bob (each with
valid stored fields) does not survive an export-import round trip: the import
skips the second Bob as an in-batch duplicate, so only one of the two players
is reproduced. -/
theorem C8_roundtrip_counterexample :
    (∀ p ∈ (Session.fromDB dupNameDB).cur.players.filter (fun p => p.team_id == 1),
      validStoredPlayer p = true) ∧
    (importPlayers (Session.fromDB dupNameDB) 9
        (exportPlayers (Session.fromDB dupNameDB) 1).1
        (exportPlayers (Session.fromDB dupNameDB) 1).2).2 =
      Except.ok
        { imported := 1, skipped := 1,
          errors := [{ row := 3, field := str "name",
                       reason := str "Duplicate player: Bob", value := str "Bob" }] } ∧
    ¬(((importPlayers (Session.fromDB dupNameDB) 9
          (exportPlayers (Session.fromDB dupNameDB) 1).1
          (exportPlayers (Session.fromDB dupNameDB) 1).2).1.committed.players.filter
        (fun q => q.team_id == 9)).map playerFields =
      ((Session.fromDB dupNameDB).cur.players.filter
        (fun p => p.team_id == 1)).map playerFields) := by
  decide

/-- C8 amended: for every team whose players all have valid stored fields
(trimmed non-empty name, jersey in 1..99, constructible birthdate with a
four-digit year, email and phone of the validated shape) and pairwise
distinct names, exporting the team's players to CSV and importing that CSV
into a fresh session whose target team is empty imports every row with no
errors and reproduces the exact field values (name, position, jersey, hand,
birthdate, email, phone, status) of every player in order, a blank status
column filling in as the default Active status.  Without the distinct-names
condition the round trip loses players to the importer's duplicate check;
without the four-digit-year condition a birthdate below year 1000 is
exported unpadded and rejected by the exactly-four-digit strptime %Y field
on re-import. -/
theorem C8_export_import_roundtrip (s : Session) (tid : Nat) (s2 : Session) (tid2 : Nat)
    (hvalid : ∀ p ∈ s.cur.players.filter (fun p => p.team_id == tid),
      validStoredPlayer p = true)
    (hnodup : ((s.cur.players.filter (fun p => p.team_id == tid)).map Player.name).Nodup)
    (hempty : ∀ q ∈ s2.cur.players, q.team_id ≠ tid2)
    (hfresh : s2.committed = s2.cur) :
    (importPlayers s2 tid2 (exportPlayers s tid).1 (exportPlayers s tid).2).2 =
      Except.ok
        { imported := (s.cur.players.filter (fun p => p.team_id == tid)).length,
          skipped := 0, errors := [] } ∧
    ((importPlayers s2 tid2 (exportPlayers s tid).1
        (exportPlayers s tid).2).1.committed.players.filter
      (fun q => q.team_id == tid2)).map playerFields =
      (s.cur.players.filter (fun p => p.team_id == tid)).map playerFields := by
  have hloop := import_export_rows tid2 (s.cur.players.filter (fun p => p.team_id == tid))
    s2 2 hvalid hnodup
    (fun q hq hteam => absurd hteam (hempty q hq))
  have hexp1 : (exportPlayers s tid).1 = EXPECTED_HEADERS := rfl
  have hexp2 : (exportPlayers s tid).2 =
      (s.cur.players.filter (fun p => p.team_id == tid)).map playerToRow := rfl
  rw [hexp1, hexp2]
  have hhdr1 : (EXPECTED_HEADERS).isEmpty = false := rfl
  have hhdr2 : missingHeaders EXPECTED_HEADERS = [] := by decide
  simp only [importPlayers, hhdr1, hhdr2, List.isEmpty_nil, Bool.not_true,
    Bool.false_eq_true, if_false]
  rw [hloop]
  simp only []
  cases hps : s.cur.players.filter (fun p => p.team_id == tid) with
  | nil =>
    simp only [List.length_nil, reimportedPlayers, List.append_nil, gt_iff_lt,
      Nat.lt_irrefl, if_false]
    refine ⟨trivial, ?_⟩
    rw [hfresh]
    have : s2.cur.players.filter (fun q => q.team_id == tid2) = [] := by
      rw [List.filter_eq_nil_iff]
      intro q hq
      simp [hempty q hq]
    simp [this]
  | cons p rest =>
    have hpos : rest.length + 1 > 0 := by omega
    simp only [List.length_cons, hpos, if_pos, Session.commit]
    refine ⟨trivial, ?_⟩
    rw [List.filter_append]
    have h1 : s2.cur.players.filter (fun q => q.team_id == tid2) = [] := by
      rw [List.filter_eq_nil_iff]
      intro q hq
      simp [hempty q hq]
    have h2 : (reimportedPlayers s2.cur.nextId tid2 (p :: rest)).filter
        (fun q => q.team_id == tid2) = reimportedPlayers s2.cur.nextId tid2 (p :: rest) := by
      rw [List.filter_eq_self]
      intro q hq
      simp [reimportedPlayers_team tid2 (p :: rest) s2.cur.nextId q hq]
    rw [h1, h2, List.nil_append]
    exact reimportedPlayers_fields tid2 (p :: rest) s2.cur.nextId

theorem C8_export_import_roundtrip_witness :
    (importPlayers (Session.fromDB importDB) 9
        (exportPlayers sampleSession 1).1 (exportPlayers sampleSession 1).2).2 =
      Except.ok
        { imported := (sampleSession.cur.players.filter (fun p => p.team_id == 1)).length,
          skipped := 0, errors := [] } ∧
    ((importPlayers (Session.fromDB importDB) 9
        (exportPlayers sampleSession 1).1
        (exportPlayers sampleSession 1).2).1.committed.players.filter
      (fun q => q.team_id == 9)).map playerFields =
      (sampleSession.cur.players.filter (fun p => p.team_id == 1)).map playerFields := by
  have h := C8_export_import_roundtrip sampleSession 1 (Session.fromDB importDB) 9
    (by decide) (by decide) (by decide) (by decide)
  exact ⟨h.1, h.2⟩

end Pfin
